import Mathlib

/-!
Shallow embedding of `lib/netdev-rte-offloads.c` (OVS DPDK hardware
flow-offload layer) and proofs about its specification claims.

Conventions of the embedding:
* machine integers become `Nat` (all values compared for equality only, or
  masked with `&&&`; byte order is modelled uniformly in host order, which is
  faithful because the code never mixes orders on the two sides of a
  comparison relevant to the claims);
* the external rte driver is modelled by a scripted response list: each
  `rte_flow_create` call consumes the next response (`some handle` or
  `none` for failure) and every driver call is recorded in a trace;
* OVS `cmap` hash maps become association lists; `xzalloc`/`xmalloc` never
  fail (in OVS they abort the process on OOM rather than returning NULL, so
  the `!ptr` branches after them are dead code, still mirrored);
* `ovsrcu_postpone(free, ...)` is modelled as immediate removal from the
  map (the claims here are sequential).
-/

namespace NetdevRteOffloads

/-! ## Constants from the source -/

def ETH_TYPE_IP : Nat := 0x0800
def IPPROTO_ICMP : Nat := 1
def IPPROTO_TCP : Nat := 6
def IPPROTO_UDP : Nat := 17
def IPPROTO_SCTP : Nat := 132
def OVS_BE16_MAX : Nat := 0xffff
def VLAN_CFI : Nat := 0x1000
/-- CS_ESTABLISHED from packets.h -/
def CS_ESTABLISHED : Nat := 0x02

def EINVAL : Int := 22
def ENOMEM : Int := 12
def ENODEV : Int := 19
def EOPNOTSUPP : Int := 95

def INVALID_ODP_PORT : Nat := 0xffffffff
def INVALID_OUTER_ID : Nat := 0xffffffff
def MAX_OUTER_ID : Nat := 0xffff

/-! ## The match model (struct flow / struct match)

Only the fields the offload layer reads are modelled.  `Flow` is used both
for `match->flow` and for the wildcard masks `match->wc.masks` (as in the
source, where both are `struct flow`).  Fields that the validation function
checks with `is_all_zeros` over a struct are collapsed to a single `Nat`
that is zero iff the struct is all-zero. -/

structure Flow where
  dl_src : Nat := 0
  dl_dst : Nat := 0
  dl_type : Nat := 0
  vlan_tci : Nat := 0
  nw_tos : Nat := 0
  nw_ttl : Nat := 0
  nw_proto : Nat := 0
  nw_src : Nat := 0
  nw_dst : Nat := 0
  tp_src : Nat := 0
  tp_dst : Nat := 0
  tcp_flags : Nat := 0
  in_port : Nat := 0
  recirc_id : Nat := 0
  -- outer tunnel header (struct flow_tnl)
  tunnel_ip_src : Nat := 0
  tunnel_ip_dst : Nat := 0
  tunnel_tun_id : Nat := 0
  tunnel_ip_tos : Nat := 0
  tunnel_ip_ttl : Nat := 0
  tunnel_tp_src : Nat := 0
  tunnel_tp_dst : Nat := 0
  tunnel_flags : Nat := 0
  -- fields only read by netdev_rte_offloads_validate_flow
  metadata : Nat := 0
  skb_priority : Nat := 0
  pkt_mark : Nat := 0
  dp_hash : Nat := 0
  ct_state : Nat := 0
  ct_nw_proto : Nat := 0
  ct_zone : Nat := 0
  ct_mark : Nat := 0
  ct_label : Nat := 0
  conj_id : Nat := 0
  actset_output : Nat := 0
  mpls_lse : Nat := 0
  ipv6_label : Nat := 0
  ct_nw_src : Nat := 0
  ct_nw_dst : Nat := 0
  ipv6_src : Nat := 0
  ipv6_dst : Nat := 0
  ct_ipv6_src : Nat := 0
  ct_ipv6_dst : Nat := 0
  nd_target : Nat := 0
  nsh : Nat := 0
  arp_sha : Nat := 0
  arp_tha : Nat := 0
  nw_frag : Nat := 0
  igmp_group_ip4 : Nat := 0
  ct_tp_src : Nat := 0
  ct_tp_dst : Nat := 0
  deriving Repr, DecidableEq

/-- struct match: the flow values and the wildcard masks (wc.masks). -/
structure Match where
  flow : Flow
  masks : Flow
  deriving Repr, DecidableEq

/-- `match_init(&match_zero_wc, ...)` folds the masks into the flow:
every field of the resulting flow is `flow AND mask`. -/
def match_zero_wc_flow (m : Match) : Flow where
  dl_src := m.flow.dl_src &&& m.masks.dl_src
  dl_dst := m.flow.dl_dst &&& m.masks.dl_dst
  dl_type := m.flow.dl_type &&& m.masks.dl_type
  vlan_tci := m.flow.vlan_tci &&& m.masks.vlan_tci
  nw_tos := m.flow.nw_tos &&& m.masks.nw_tos
  nw_ttl := m.flow.nw_ttl &&& m.masks.nw_ttl
  nw_proto := m.flow.nw_proto &&& m.masks.nw_proto
  nw_src := m.flow.nw_src &&& m.masks.nw_src
  nw_dst := m.flow.nw_dst &&& m.masks.nw_dst
  tp_src := m.flow.tp_src &&& m.masks.tp_src
  tp_dst := m.flow.tp_dst &&& m.masks.tp_dst
  tcp_flags := m.flow.tcp_flags &&& m.masks.tcp_flags
  in_port := m.flow.in_port &&& m.masks.in_port
  recirc_id := m.flow.recirc_id &&& m.masks.recirc_id
  tunnel_ip_src := m.flow.tunnel_ip_src &&& m.masks.tunnel_ip_src
  tunnel_ip_dst := m.flow.tunnel_ip_dst &&& m.masks.tunnel_ip_dst
  tunnel_tun_id := m.flow.tunnel_tun_id &&& m.masks.tunnel_tun_id
  tunnel_ip_tos := m.flow.tunnel_ip_tos &&& m.masks.tunnel_ip_tos
  tunnel_ip_ttl := m.flow.tunnel_ip_ttl &&& m.masks.tunnel_ip_ttl
  tunnel_tp_src := m.flow.tunnel_tp_src &&& m.masks.tunnel_tp_src
  tunnel_tp_dst := m.flow.tunnel_tp_dst &&& m.masks.tunnel_tp_dst
  tunnel_flags := m.flow.tunnel_flags &&& m.masks.tunnel_flags
  metadata := m.flow.metadata &&& m.masks.metadata
  skb_priority := m.flow.skb_priority &&& m.masks.skb_priority
  pkt_mark := m.flow.pkt_mark &&& m.masks.pkt_mark
  dp_hash := m.flow.dp_hash &&& m.masks.dp_hash
  ct_state := m.flow.ct_state &&& m.masks.ct_state
  ct_nw_proto := m.flow.ct_nw_proto &&& m.masks.ct_nw_proto
  ct_zone := m.flow.ct_zone &&& m.masks.ct_zone
  ct_mark := m.flow.ct_mark &&& m.masks.ct_mark
  ct_label := m.flow.ct_label &&& m.masks.ct_label
  conj_id := m.flow.conj_id &&& m.masks.conj_id
  actset_output := m.flow.actset_output &&& m.masks.actset_output
  mpls_lse := m.flow.mpls_lse &&& m.masks.mpls_lse
  ipv6_label := m.flow.ipv6_label &&& m.masks.ipv6_label
  ct_nw_src := m.flow.ct_nw_src &&& m.masks.ct_nw_src
  ct_nw_dst := m.flow.ct_nw_dst &&& m.masks.ct_nw_dst
  ipv6_src := m.flow.ipv6_src &&& m.masks.ipv6_src
  ipv6_dst := m.flow.ipv6_dst &&& m.masks.ipv6_dst
  ct_ipv6_src := m.flow.ct_ipv6_src &&& m.masks.ct_ipv6_src
  ct_ipv6_dst := m.flow.ct_ipv6_dst &&& m.masks.ct_ipv6_dst
  nd_target := m.flow.nd_target &&& m.masks.nd_target
  nsh := m.flow.nsh &&& m.masks.nsh
  arp_sha := m.flow.arp_sha &&& m.masks.arp_sha
  arp_tha := m.flow.arp_tha &&& m.masks.arp_tha
  nw_frag := m.flow.nw_frag &&& m.masks.nw_frag
  igmp_group_ip4 := m.flow.igmp_group_ip4 &&& m.masks.igmp_group_ip4
  ct_tp_src := m.flow.ct_tp_src &&& m.masks.ct_tp_src
  ct_tp_dst := m.flow.ct_tp_dst &&& m.masks.ct_tp_dst

/-- The `is_all_zeros(&flow.tunnel, ...)` test of the wc-zeroed flow. -/
def tunnel_is_all_zeros (f : Flow) : Bool :=
  f.tunnel_ip_src = 0 && f.tunnel_ip_dst = 0 && f.tunnel_tun_id = 0 &&
  f.tunnel_ip_tos = 0 && f.tunnel_ip_ttl = 0 && f.tunnel_tp_src = 0 &&
  f.tunnel_tp_dst = 0 && f.tunnel_flags = 0

/-- netdev_rte_offloads_validate_flow: returns `true` when the match can be
offloaded (the C function returns 0), `false` on the `err` path (-1). -/
def netdev_rte_offloads_validate_flow (m : Match) (is_tun : Bool) : Bool :=
  let masks := m.masks
  let zwc := match_zero_wc_flow m
  if !is_tun && !(tunnel_is_all_zeros zwc) then false
  else if masks.metadata ≠ 0 || masks.skb_priority ≠ 0 ||
          masks.pkt_mark ≠ 0 || masks.dp_hash ≠ 0 then false
  else if (masks.ct_state ≠ 0 && masks.ct_state &&& CS_ESTABLISHED = 0) ||
          masks.ct_nw_proto ≠ 0 || masks.ct_zone ≠ 0 || masks.ct_mark ≠ 0 ||
          masks.ct_label ≠ 0 then false
  else if masks.conj_id ≠ 0 || masks.actset_output ≠ 0 then false
  else if masks.mpls_lse ≠ 0 then false
  else if masks.ipv6_label ≠ 0 || masks.ct_nw_src ≠ 0 || masks.ct_nw_dst ≠ 0 ||
          masks.ipv6_src ≠ 0 || masks.ipv6_dst ≠ 0 ||
          masks.ct_ipv6_src ≠ 0 || masks.ct_ipv6_dst ≠ 0 ||
          masks.nd_target ≠ 0 || masks.nsh ≠ 0 ||
          masks.arp_sha ≠ 0 || masks.arp_tha ≠ 0 then false
  else if zwc.nw_frag ≠ 0 then false
  else if masks.igmp_group_ip4 ≠ 0 || masks.ct_tp_src ≠ 0 ||
          masks.ct_tp_dst ≠ 0 then false
  else true

/-! ## The pattern compiler (add_flow_patterns)

The C builder stores pointers into a `struct flow_items` spec/mask pair;
the driver reads the items only after the builder finished, so a mask field
cleared after the item was appended (the `next_proto_id` clearing) is seen
cleared by the driver.  The embedding therefore returns the list of item
types together with the final spec and mask `flow_items` contents. -/

inductive ItemType where
  | eth | vlan | ipv4 | udp | tcp | sctp | icmp | vxlan | END
  deriving Repr, DecidableEq

/-- struct flow_items (the union of L4 items is expanded; only the branch
selected by the protocol is ever written, as in the source). -/
structure FlowItems where
  eth_dst : Nat := 0
  eth_src : Nat := 0
  eth_type : Nat := 0
  vlan_tci : Nat := 0
  vlan_inner_type : Nat := 0
  ipv4_tos : Nat := 0
  ipv4_ttl : Nat := 0
  ipv4_proto : Nat := 0
  ipv4_src : Nat := 0
  ipv4_dst : Nat := 0
  vxlan_flags : Nat := 0
  vxlan_vni0 : Nat := 0
  vxlan_vni1 : Nat := 0
  vxlan_vni2 : Nat := 0
  l4_src_port : Nat := 0
  l4_dst_port : Nat := 0
  tcp_data_off : Nat := 0
  tcp_flags : Nat := 0
  deriving Repr, DecidableEq

/-- Result of a pattern build: item type list plus final spec/mask. -/
structure PatternResult where
  items : List ItemType
  spec : FlowItems
  mask : FlowItems
  deriving Repr, DecidableEq

/-- The `/* Eth */` step of add_flow_patterns: if any L2 mask is set emit
a concrete ETH item, else a match-any ETH item (NULL spec/mask) — some
NICs reject an absent L2 item. -/
def add_flow_patterns_eth (m : Match) : PatternResult :=
  if m.masks.dl_src ≠ 0 || m.masks.dl_dst ≠ 0 then
    { items := [ItemType.eth],
      spec := { eth_dst := m.flow.dl_dst, eth_src := m.flow.dl_src,
                eth_type := m.flow.dl_type },
      mask := { eth_dst := m.masks.dl_dst, eth_src := m.masks.dl_src,
                eth_type := m.masks.dl_type } }
  else
    { items := [ItemType.eth], spec := {}, mask := {} }

/-- The `/* VLAN */` step. -/
def add_flow_patterns_vlan (m : Match) (st : PatternResult) : PatternResult :=
  if m.masks.vlan_tci ≠ 0 && m.flow.vlan_tci ≠ 0 then
    { items := st.items ++ [ItemType.vlan],
      spec := { st.spec with vlan_tci := m.flow.vlan_tci &&& (0xffff ^^^ VLAN_CFI) },
      mask := { st.mask with vlan_tci := m.masks.vlan_tci &&& (0xffff ^^^ VLAN_CFI),
                             vlan_inner_type := 0 } }
  else st

/-- The `/* IP v4 */` step; also yields the resolved (spec AND mask)
protocol saved for the L4 setup (0 when the ethertype is not IPv4). -/
def add_flow_patterns_ipv4 (m : Match) (st : PatternResult) :
    PatternResult × Nat :=
  if m.flow.dl_type = ETH_TYPE_IP then
    let spec := { st.spec with ipv4_tos := m.flow.nw_tos,
                               ipv4_ttl := m.flow.nw_ttl,
                               ipv4_proto := m.flow.nw_proto,
                               ipv4_src := m.flow.nw_src,
                               ipv4_dst := m.flow.nw_dst }
    let mask := { st.mask with ipv4_tos := m.masks.nw_tos,
                               ipv4_ttl := m.masks.nw_ttl,
                               ipv4_proto := m.masks.nw_proto,
                               ipv4_src := m.masks.nw_src,
                               ipv4_dst := m.masks.nw_dst }
    ({ items := st.items ++ [ItemType.ipv4], spec := spec, mask := mask },
     spec.ipv4_proto &&& mask.ipv4_proto)
  else (st, 0)

/-- The L4 guards and the `switch (proto)` of add_flow_patterns.  When an
L4 item is emitted the IPv4 `next_proto_id` mask is cleared (the item type
already selects the protocol). -/
def add_flow_patterns_l4 (m : Match) (proto : Nat) (st : PatternResult) :
    Option PatternResult :=
  if proto ≠ IPPROTO_ICMP && proto ≠ IPPROTO_UDP &&
     proto ≠ IPPROTO_SCTP && proto ≠ IPPROTO_TCP &&
     (m.masks.tp_src ≠ 0 || m.masks.tp_dst ≠ 0 || m.masks.tcp_flags ≠ 0) then
    none
  else if (m.masks.tp_src ≠ 0 && m.masks.tp_src ≠ OVS_BE16_MAX) ||
          (m.masks.tp_dst ≠ 0 && m.masks.tp_dst ≠ OVS_BE16_MAX) then
    none
  else if proto = IPPROTO_TCP then
    some { items := st.items ++ [ItemType.tcp],
           spec := { st.spec with l4_src_port := m.flow.tp_src,
                                  l4_dst_port := m.flow.tp_dst,
                                  tcp_data_off := m.flow.tcp_flags / 256,
                                  tcp_flags := m.flow.tcp_flags &&& 0xff },
           mask := { st.mask with l4_src_port := m.masks.tp_src,
                                  l4_dst_port := m.masks.tp_dst,
                                  tcp_data_off := m.masks.tcp_flags / 256,
                                  tcp_flags := m.masks.tcp_flags &&& 0xff,
                                  ipv4_proto := 0 } }
  else if proto = IPPROTO_UDP then
    some { items := st.items ++ [ItemType.udp],
           spec := { st.spec with l4_src_port := m.flow.tp_src,
                                  l4_dst_port := m.flow.tp_dst },
           mask := { st.mask with l4_src_port := m.masks.tp_src,
                                  l4_dst_port := m.masks.tp_dst,
                                  ipv4_proto := 0 } }
  else if proto = IPPROTO_SCTP then
    some { items := st.items ++ [ItemType.sctp],
           spec := { st.spec with l4_src_port := m.flow.tp_src,
                                  l4_dst_port := m.flow.tp_dst },
           mask := { st.mask with l4_src_port := m.masks.tp_src,
                                  l4_dst_port := m.masks.tp_dst,
                                  ipv4_proto := 0 } }
  else if proto = IPPROTO_ICMP then
    some { items := st.items ++ [ItemType.icmp],
           spec := { st.spec with l4_src_port := m.flow.tp_src &&& 0xff,
                                  l4_dst_port := m.flow.tp_dst &&& 0xff },
           mask := { st.mask with l4_src_port := m.masks.tp_src &&& 0xff,
                                  l4_dst_port := m.masks.tp_dst &&& 0xff,
                                  ipv4_proto := 0 } }
  else
    some st

/-- add_flow_patterns.  Returns `none` exactly when the C function returns
-1 (unsupported L4 protocol with transport constraints, or a partial
transport-port mask). -/
def add_flow_patterns (m : Match) : Option PatternResult :=
  let st := add_flow_patterns_eth m
  let st := add_flow_patterns_vlan m st
  let (st, proto) := add_flow_patterns_ipv4 m st
  add_flow_patterns_l4 m proto st

/-- The pattern phase of netdev_rte_offloads_add_flow: add_flow_patterns
followed by `add_flow_pattern(&patterns, RTE_FLOW_ITEM_TYPE_END, ...)`. -/
def offloads_add_flow_pattern_phase (m : Match) : Option PatternResult :=
  (add_flow_patterns m).map fun r => { r with items := r.items ++ [ItemType.END] }

/-- add_vport_vxlan_flow_patterns: outer-header (tunnel) pattern for a
VXLAN virtual-port flow.  The `vni` union is read on a little-endian host:
`vni.vni[k] = (val >> 8k) & 0xff` for the uint32 `val = tun_id >> 32`. -/
def add_vport_vxlan_flow_patterns (m : Match) : Option PatternResult :=
  if m.flow.dl_type = ETH_TYPE_IP then
    let spec : FlowItems :=
      { ipv4_tos := m.flow.tunnel_ip_tos, ipv4_ttl := m.flow.tunnel_ip_ttl,
        ipv4_proto := IPPROTO_UDP, ipv4_src := m.flow.tunnel_ip_src,
        ipv4_dst := m.flow.tunnel_ip_dst }
    let mask : FlowItems :=
      { ipv4_tos := m.masks.tunnel_ip_tos, ipv4_ttl := m.masks.tunnel_ip_ttl,
        ipv4_proto := 0xff, ipv4_src := m.masks.tunnel_ip_src,
        ipv4_dst := m.masks.tunnel_ip_dst }
    let proto := spec.ipv4_proto &&& mask.ipv4_proto
    if proto = IPPROTO_UDP then
      let spec := { spec with l4_src_port := m.flow.tunnel_tp_src,
                              l4_dst_port := m.flow.tunnel_tp_dst }
      -- the source reads the UDP mask from masks.tp_src/tp_dst (the inner
      -- transport-port masks), not masks.tunnel.tp_src/tp_dst
      let mask := { mask with l4_src_port := m.masks.tp_src,
                              l4_dst_port := m.masks.tp_dst }
      let vni := (m.flow.tunnel_tun_id >>> 32) &&& 0xffffffff
      let vni_m := (m.masks.tunnel_tun_id >>> 32) &&& 0xffffffff
      let spec := { spec with vxlan_flags := m.flow.tunnel_flags,
                              vxlan_vni0 := (vni >>> 8) &&& 0xff,
                              vxlan_vni1 := (vni >>> 16) &&& 0xff,
                              vxlan_vni2 := (vni >>> 24) &&& 0xff }
      let mask := { mask with vxlan_vni0 := (vni_m >>> 8) &&& 0xff,
                              vxlan_vni1 := (vni_m >>> 16) &&& 0xff,
                              vxlan_vni2 := (vni_m >>> 24) &&& 0xff }
      some { items := [ItemType.ipv4, ItemType.udp, ItemType.vxlan],
             spec := spec, mask := mask }
    else none
  else none

/-! ## The driver model and the bookkeeping state

The external rte driver is scripted: `flow_create` consumes the head of a
response list (`none` when the list is exhausted) and records the call;
`flow_destroy` always succeeds (the source tolerates and merely logs
destroy errors, continuing identically). -/

inductive DriverOp where
  | create (result : Option Nat)
  | destroy (handle : Nat)
  deriving Repr, DecidableEq

def DriverOp.isCreate : DriverOp → Bool
  | .create _ => true
  | .destroy _ => false

structure Hw where
  resp : List (Option Nat)
  trace : List DriverOp := []
  deriving Repr, DecidableEq

def Hw.flow_create (hw : Hw) : Option Nat × Hw :=
  match hw.resp with
  | [] => (none, { hw with trace := hw.trace ++ [DriverOp.create none] })
  | r :: rs => (r, { resp := rs, trace := hw.trace ++ [DriverOp.create r] })

def Hw.flow_destroy (hw : Hw) (h : Nat) : Hw :=
  { hw with trace := hw.trace ++ [DriverOp.destroy h] }

/-- struct netdev, reduced to what the offload layer consults. -/
structure Netdev where
  id : Nat
  is_uplink : Bool := false
  n_rxq : Nat := 1
  deriving Repr, DecidableEq

inductive RtePortType where
  | unknown | dpdk | vxlan
  deriving Repr, DecidableEq

/-- struct ufid_hw_offload: `curr_idx` is `flows.length`; the flexible
array member `rte_flow_data` holds (rte-flow handle, recorded netdev). -/
structure UfidHwOffload where
  ufid : Nat
  max_flows : Nat
  flows : List (Nat × Nat) := []
  deriving Repr, DecidableEq

def netdev_rte_port_ufid_hw_offload_alloc (max_flows : Nat) (ufid : Nat) :
    UfidHwOffload :=
  { ufid := ufid, max_flows := max_flows, flows := [] }

/-- ufid_hw_offload_add_rte_flow: record the handle while there is room,
otherwise immediately destroy the overflow handle via the driver. -/
def ufid_hw_offload_add_rte_flow (r : UfidHwOffload) (flow netdevId : Nat)
    (hw : Hw) : UfidHwOffload × Hw :=
  if r.flows.length < r.max_flows then
    ({ r with flows := r.flows ++ [(flow, netdevId)] }, hw)
  else
    (r, hw.flow_destroy flow)

/-- netdev_rte_port_ufid_hw_offload_free: destroy every recorded handle
(recorded handles are non-null by construction), then free the struct.
The C function returns 0 unconditionally. -/
def netdev_rte_port_ufid_hw_offload_free (r : UfidHwOffload) (hw : Hw) : Hw :=
  r.flows.foldl (fun hw q => hw.flow_destroy q.1) hw

/-- struct netdev_rte_port.  `default_rte_flow` is the per-table array of
default-flow handles: an association list table-id → handle, absent = NULL. -/
structure PortEntry where
  dp_port : Nat
  dpdk_port_id : Nat := 0
  netdev : Netdev
  rte_port_type : RtePortType
  table_id : Nat := 0
  dpdk_num_queues : Nat := 0
  exception_mark : Nat := 0
  ufid_to_rte : List UfidHwOffload := []
  default_rte_flow : List (Nat × Nat) := []
  deriving Repr, DecidableEq

/-- netdev_rte_port_search over the port map. -/
def netdev_rte_port_search (dp_port : Nat) (ports : List PortEntry) :
    Option PortEntry :=
  ports.find? (fun p => p.dp_port = dp_port)

def update_port (pe : PortEntry) (ports : List PortEntry) : List PortEntry :=
  ports.map (fun q => if q.dp_port = pe.dp_port then pe else q)

def ufid_hw_offload_find (ufid : Nat) (map : List UfidHwOffload) :
    Option UfidHwOffload :=
  map.find? (fun r => r.ufid = ufid)

/-- The global mutable state of the offload layer plus the driver script. -/
structure OffState where
  port_map : List PortEntry
  ufid_to_portid_map : List (Nat × Nat) := []
  dpdk_phy_ports_amount : Nat := 0
  hw : Hw
  deriving Repr, DecidableEq

/-! ## ufid → dp_port reverse map -/

def ufid_to_portid_search (ufid : Nat) (map : List (Nat × Nat)) : Nat :=
  match map.find? (fun q => q.1 = ufid) with
  | some q => q.2
  | none => INVALID_ODP_PORT

/-- ufid_to_portid_add: when a mapping for the ufid already exists the
supplied port is returned as if saved, but nothing is stored. -/
def ufid_to_portid_add (map : List (Nat × Nat)) (ufid dp_port : Nat) :
    Nat × List (Nat × Nat) :=
  if ufid_to_portid_search ufid map ≠ INVALID_ODP_PORT then
    (dp_port, map)
  else
    (dp_port, (ufid, dp_port) :: map)

def ufid_to_portid_remove (map : List (Nat × Nat)) (ufid : Nat) :
    List (Nat × Nat) :=
  map.filter (fun q => q.1 ≠ ufid)

/-! ## The software action representation (nlattr) -/

inductive CtAttr where
  | zone (z : Nat) | commit | forceCommit | helper | mark | labels
  | eventmask | natAttr
  deriving Repr, DecidableEq

inductive CloneSub where
  | tunnelPush | output (p : Nat)
  deriving Repr, DecidableEq

inductive NlAction where
  | tunnelPop (p : Nat)
  | output (p : Nat)
  | clone (subs : List CloneSub)
  | ct (subs : List CtAttr)
  | recirc (id : Nat)
  | other
  deriving Repr, DecidableEq

/-- The hardware action tags appended by the builders (contents are not
needed by any claim; the tag sequence mirrors the source's order). -/
inductive ActionType where
  | jump | count | portId | rawEncap | markAct | rss | decap | END
  deriving Repr, DecidableEq

/-- netdev_rte_add_clone_flow_action: iterate the nested clone list;
a failed output-port lookup aborts with EINVAL. -/
def netdev_rte_add_clone_flow_action (ports : List PortEntry) :
    List CloneSub → List ActionType → Int × List ActionType
  | [], acts => (0, acts)
  | CloneSub.tunnelPush :: rest, acts =>
      netdev_rte_add_clone_flow_action ports rest (acts ++ [ActionType.rawEncap])
  | CloneSub.output p :: rest, acts =>
      match netdev_rte_port_search p ports with
      | none => (EINVAL, acts)
      | some _ =>
          netdev_rte_add_clone_flow_action ports rest
            (acts ++ [ActionType.count, ActionType.portId])

/-- Accumulator of the action loop in netdev_rte_offloads_add_flow. -/
structure AddFlowLoopSt where
  result : Int := 0
  actions : List ActionType := []
  bTunnelPop : Bool := false
  bOutput : Bool := false
  bClone : Bool := false
  vport : Option PortEntry := none
  deriving Repr, DecidableEq

/-- The NL_ATTR_FOR_EACH_UNSAFE loop of netdev_rte_offloads_add_flow:
TUNNEL_POP adds a jump (to the vport's table) and a count action, OUTPUT a
count and a port-id action, CLONE its nested translation; anything else is
unsupported (`result = -1`, break, which later selects Mark+RSS fallback). -/
def offloads_add_flow_loop (ports : List PortEntry) :
    List NlAction → AddFlowLoopSt → AddFlowLoopSt
  | [], st => st
  | a :: rest, st =>
    match a with
    | NlAction.tunnelPop p =>
      match netdev_rte_port_search p ports with
      | none => { st with result := -1 }
      | some v =>
          offloads_add_flow_loop ports rest
            { st with vport := some v, bTunnelPop := true, result := 0,
                      actions := st.actions ++ [ActionType.jump, ActionType.count] }
    | NlAction.output p =>
      match netdev_rte_port_search p ports with
      | none => { st with result := EINVAL }
      | some _ =>
          offloads_add_flow_loop ports rest
            { st with bOutput := true,
                      actions := st.actions ++ [ActionType.count, ActionType.portId] }
    | NlAction.clone subs =>
      let (res, acts) := netdev_rte_add_clone_flow_action ports subs st.actions
      if res ≠ 0 then { st with result := res, actions := acts }
      else offloads_add_flow_loop ports rest
             { st with bClone := true, actions := acts }
    | _ => { st with result := -1 }

/-- netdev_rte_offloads_add_flow: build patterns, translate actions,
install.  Unsupported actions fall back to a Mark+RSS flow.  For a
tunnel-pop flow the per-table default flow is created lazily; if that
creation fails the `goto out; /* ASAF TEMP */` path returns the
just-installed specific flow without destroying it (the rollback code
below the goto is unreachable). -/
def netdev_rte_offloads_add_flow (s : OffState) (m : Match)
    (acts : List NlAction) : Option Nat × OffState :=
  match add_flow_patterns m with
  | none => (none, s)
  | some _ =>
    let st := offloads_add_flow_loop s.port_map acts {}
    if st.result ≠ 0 then
      -- netdev_rte_offload_mark_rss on the ingress netdev
      (s.hw.flow_create.1, { s with hw := s.hw.flow_create.2 })
    else
      -- clone flows are offloaded behind a jump rule to group 1
      let jumpOk := if st.bClone then (s.hw.flow_create.1).isSome else true
      let s₁ := if st.bClone then { s with hw := s.hw.flow_create.2 } else s
      if !jumpOk then (none, s₁)
      else
        let f := s₁.hw.flow_create.1
        let s₂ := { s₁ with hw := s₁.hw.flow_create.2 }
        match f with
        | none => (none, s₂)
        | some h =>
          if st.bTunnelPop then
            match netdev_rte_port_search m.flow.in_port s₂.port_map,
                  st.vport with
            | some rte_port, some v =>
              if (rte_port.default_rte_flow.find? (fun q => q.1 = v.table_id)).isNone
              then
                let df := s₂.hw.flow_create.1
                let s₃ := { s₂ with hw := s₂.hw.flow_create.2 }
                match df with
                | some d =>
                  let rte_port := { rte_port with default_rte_flow :=
                                      (v.table_id, d) :: rte_port.default_rte_flow }
                  (some h, { s₃ with port_map := update_port rte_port s₃.port_map })
                | none =>
                  -- default-flow creation failed: `goto out` keeps and
                  -- returns the already-installed specific flow
                  (some h, s₃)
              else (some h, s₂)
            | _, _ => (some h, s₂)  -- unreachable from flow_put
          else (some h, s₂)

/-- netdev_rte_offloads_flow_put. -/
def netdev_rte_offloads_flow_put (s : OffState) (netdev : Netdev) (m : Match)
    (acts : List NlAction) (ufid : Nat) : Int × OffState :=
  match netdev_rte_port_search m.flow.in_port s.port_map with
  | none => (EINVAL, s)
  | some rte_port =>
    -- flow modification: destroy the old rte flows first
    let (rte_port, s) :=
      match ufid_hw_offload_find ufid rte_port.ufid_to_rte with
      | some old =>
        let rte_port := { rte_port with
          ufid_to_rte := rte_port.ufid_to_rte.filter (fun r => r.ufid ≠ ufid) }
        let hw := netdev_rte_port_ufid_hw_offload_free old s.hw
        (rte_port, { s with port_map := update_port rte_port s.port_map,
                            hw := hw })
      | none => (rte_port, s)
    -- fresh identity entry with capacity 1
    let newOffload := netdev_rte_port_ufid_hw_offload_alloc 1 ufid
    let rte_port := { rte_port with ufid_to_rte := newOffload :: rte_port.ufid_to_rte }
    let s := { s with port_map := update_port rte_port s.port_map }
    let s := { s with ufid_to_portid_map :=
                 (ufid_to_portid_add s.ufid_to_portid_map ufid rte_port.dp_port).2 }
    if !netdev_rte_offloads_validate_flow m false then (EINVAL, s)
    else
      match netdev_rte_offloads_add_flow s m acts with
      | (none, s) => (ENODEV, s)
      | (some h, s) =>
        match netdev_rte_port_search m.flow.in_port s.port_map with
        | none => (0, s)  -- unreachable: the entry was just (re)inserted
        | some rp =>
          match ufid_hw_offload_find ufid rp.ufid_to_rte with
          | none => (0, s)  -- unreachable
          | some r =>
            let (r, hw) := ufid_hw_offload_add_rte_flow r h netdev.id s.hw
            let rp := { rp with ufid_to_rte :=
                          rp.ufid_to_rte.map (fun q => if q.ufid = ufid then r else q) }
            (0, { s with hw := hw, port_map := update_port rp s.port_map })

/-! ## The VXLAN virtual-port flow_put path -/

/-- Result of the action loop in netdev_vport_vxlan_add_rte_flow_offload:
either `goto out` with an error, or the loop completed with the final
`ret` value (a failed output-port lookup sets `ret` and `continue`s, so a
nonzero `ret` can survive the loop) and the OUTPUT flag. -/
inductive VxlanLoopRes where
  | out (ret : Int)
  | done (ret : Int) (hasOutput : Bool)
  deriving Repr, DecidableEq

def vxlan_action_loop (ports : List PortEntry) :
    List NlAction → Int → Bool → Bool → VxlanLoopRes
  | [], ret, hasOutput, _ => VxlanLoopRes.done ret hasOutput
  | a :: rest, ret, hasOutput, hasCt =>
    match a with
    | NlAction.output p =>
      match netdev_rte_port_search p ports with
      | none => vxlan_action_loop ports rest EINVAL hasOutput hasCt
      | some _ => vxlan_action_loop ports rest 0 true hasCt
    | NlAction.ct subs =>
      -- only zone 0 is supported; a nonzero zone aborts with EOPNOTSUPP
      if subs.any (fun c => match c with | CtAttr.zone z => z ≠ 0 | _ => false)
      then VxlanLoopRes.out EOPNOTSUPP
      else vxlan_action_loop ports rest ret hasOutput true
    | NlAction.recirc _ =>
      if !hasCt then VxlanLoopRes.out EOPNOTSUPP
      else vxlan_action_loop ports rest ret hasOutput hasCt
    | _ => VxlanLoopRes.out EOPNOTSUPP

/-- The uplink test of the fan-out loop:
`rte_port_type == RTE_PORT_TYPE_DPDK && netdev_dpdk_is_uplink_port(...)`. -/
def is_uplink_dpdk (d : PortEntry) : Bool :=
  d.rte_port_type = RtePortType.dpdk && d.netdev.is_uplink

/-- The CMAP_FOR_EACH fan-out loop over the port map: for every DPDK
uplink port, try the decap(+output) form, then the Mark+RSS fallback; a
successful handle is recorded (against the vport's netdev, as in the
source) into the identity record. -/
def vxlan_fanout (recordNetdev : Nat) (ports : List PortEntry)
    (r : UfidHwOffload) (hw : Hw) : UfidHwOffload × Hw :=
  match ports with
  | [] => (r, hw)
  | data :: rest =>
    if is_uplink_dpdk data then
      let (f, hw) := hw.flow_create
      let (f, hw) :=
        match f with
        | some h => (some h, hw)
        | none => hw.flow_create  -- netdev_rte_offload_mark_rss fallback
      match f with
      | some h =>
        let (r, hw) := ufid_hw_offload_add_rte_flow r h recordNetdev hw
        vxlan_fanout recordNetdev rest r hw
      | none => vxlan_fanout recordNetdev rest r hw
    else vxlan_fanout recordNetdev rest r hw

/-- netdev_vport_vxlan_add_rte_flow_offload.  `rte_port` is the VXLAN
virtual port the request arrived on (already found by the caller). -/
def netdev_vport_vxlan_add_rte_flow_offload (s : OffState)
    (rte_port : PortEntry) (m : Match) (acts : List NlAction) (ufid : Nat) :
    Int × OffState :=
  if acts.isEmpty then (0, s)  -- skip flow offload without actions
  else
    -- flow modification: destroy the old rte flows first
    let (rte_port, s) :=
      match ufid_hw_offload_find ufid rte_port.ufid_to_rte with
      | some old =>
        let rte_port := { rte_port with
          ufid_to_rte := rte_port.ufid_to_rte.filter (fun r => r.ufid ≠ ufid) }
        let hw := netdev_rte_port_ufid_hw_offload_free old s.hw
        (rte_port, { s with port_map := update_port rte_port s.port_map,
                            hw := hw })
      | none => (rte_port, s)
    if s.dpdk_phy_ports_amount = 0 then (-1, s)
    else
      let newOffload :=
        netdev_rte_port_ufid_hw_offload_alloc s.dpdk_phy_ports_amount ufid
      let rte_port := { rte_port with
                        ufid_to_rte := newOffload :: rte_port.ufid_to_rte }
      let s := { s with port_map := update_port rte_port s.port_map }
      let s := { s with ufid_to_portid_map :=
                   (ufid_to_portid_add s.ufid_to_portid_map ufid rte_port.dp_port).2 }
      match add_vport_vxlan_flow_patterns m with
      | none => (-1, s)
      | some _ =>
        match add_flow_patterns m with
        | none => (-1, s)
        | some _ =>
          match vxlan_action_loop s.port_map acts 0 false false with
          | VxlanLoopRes.out ret => (ret, s)
          | VxlanLoopRes.done ret _hasOutput =>
            let fo := vxlan_fanout rte_port.netdev.id s.port_map newOffload s.hw
            let newMap := rte_port.ufid_to_rte.map
              (fun q => if q.ufid = ufid then fo.1 else q)
            let rte_port := { rte_port with ufid_to_rte := newMap }
            (ret, { s with hw := fo.2,
                           port_map := update_port rte_port s.port_map })

/-- netdev_rte_vport_flow_put: the flow_put entry point installed on VXLAN
virtual ports (netdev_rte_offloads_vxlan_init sets cls->flow_put to it). -/
def netdev_rte_vport_flow_put (s : OffState) (m : Match)
    (acts : List NlAction) (ufid : Nat) : Int × OffState :=
  if !netdev_rte_offloads_validate_flow m true then (EOPNOTSUPP, s)
  else
    match netdev_rte_port_search m.flow.in_port s.port_map with
    | none => (0, s)
    | some rte_port =>
      if rte_port.rte_port_type = RtePortType.vxlan then
        netdev_vport_vxlan_add_rte_flow_offload s rte_port m acts ufid
      else (0, s)  -- `ovs_assert(true)` is a no-op; ret stays 0

/-! ## Tunnel outer-id contexts (3-tuple → outer-id, with refcounts)

`id_pool` (lib/id-pool.c) is not part of the sources under inspection.
Modelled from the spec: §4.1 "fixed-range integer-id allocators":
`allocate(poolRange) -> id | EXHAUSTED`, `release(id)`; allocation hands
out previously released ids first, then fresh ids up to the range bound. -/

structure IdPool where
  next : Nat
  maxId : Nat
  freed : List Nat := []
  deriving Repr, DecidableEq

def id_pool_create (base maxId : Nat) : IdPool :=
  { next := base, maxId := maxId, freed := [] }

def id_pool_alloc_id (p : IdPool) : Option Nat × IdPool :=
  match p.freed with
  | f :: fs => (some f, { p with freed := fs })
  | [] => if p.next ≤ p.maxId then (some p.next, { p with next := p.next + 1 })
          else (none, p)

def id_pool_free_id (p : IdPool) (id : Nat) : IdPool :=
  { p with freed := id :: p.freed }

/-- struct tun_ctx_outer_id_data: one node of a tunnel-context map
(the two maps hold separately allocated nodes; the node in the
outer-id→tuple map is created by tun_data_insert with ref_count zeroed). -/
structure TunData where
  outer_id : Nat
  ip_dst : Nat
  ip_src : Nat
  tun_id : Nat
  ref_count : Nat := 0
  deriving Repr, DecidableEq

/-- struct tun_ctx_outer_id: the coupled forward/reverse maps + pool. -/
structure TunCtx where
  outer_id_to_tun_map : List TunData := []
  tun_to_outer_id_map : List TunData := []
  pool : Option IdPool := none
  deriving Repr, DecidableEq

def netdev_dpdk_tun_data_find (c : TunCtx) (outer_id : Nat) : Option TunData :=
  c.outer_id_to_tun_map.find? (fun d => d.outer_id = outer_id)

def netdev_dpdk_tun_data_del (c : TunCtx) (outer_id : Nat) : TunCtx :=
  { c with outer_id_to_tun_map :=
      c.outer_id_to_tun_map.filter (fun d => d.outer_id ≠ outer_id) }

def netdev_dpdk_tun_data_insert (c : TunCtx)
    (outer_id ip_dst ip_src tun_id : Nat) : TunCtx :=
  { c with outer_id_to_tun_map :=
      { outer_id := outer_id, ip_dst := ip_dst, ip_src := ip_src,
        tun_id := tun_id } :: c.outer_id_to_tun_map }

/-- netdev_dpdk_tun_outer_id_get_ref: existing tuple → bump refcount and
return its outer id, else INVALID_OUTER_ID. -/
def netdev_dpdk_tun_outer_id_get_ref (c : TunCtx)
    (ip_dst ip_src tun_id : Nat) : Nat × TunCtx :=
  match c.tun_to_outer_id_map.find?
      (fun d => d.tun_id = tun_id && d.ip_dst = ip_dst && d.ip_src = ip_src) with
  | some d =>
    let bumped := c.tun_to_outer_id_map.map
      (fun e => if e.tun_id = tun_id && e.ip_dst = ip_dst && e.ip_src = ip_src
                then { e with ref_count := e.ref_count + 1 } else e)
    (d.outer_id, { c with tun_to_outer_id_map := bumped })
  | none => (INVALID_OUTER_ID, c)

/-- netdev_dpdk_tun_outer_id_alloc: allocate a fresh outer id (creating
the pool lazily) and insert the tuple into both maps with refcount 1. -/
def netdev_dpdk_tun_outer_id_alloc (c : TunCtx)
    (ip_dst ip_src tun_id : Nat) : Nat × TunCtx :=
  let pool := c.pool.getD (id_pool_create 1 MAX_OUTER_ID)
  match id_pool_alloc_id pool with
  | (none, pool) => (INVALID_OUTER_ID, { c with pool := some pool })
  | (some outer_id, pool) =>
    let c := { c with pool := some pool }
    let c := { c with tun_to_outer_id_map :=
        { outer_id := outer_id, ip_dst := ip_dst, ip_src := ip_src,
          tun_id := tun_id, ref_count := 1 } :: c.tun_to_outer_id_map }
    let c := netdev_dpdk_tun_data_insert c outer_id ip_dst ip_src tun_id
    (outer_id, c)

/-- netdev_dpdk_tun_outer_id_unref: decrement; on zero remove the entry
from both maps and return the id to the pool. -/
def netdev_dpdk_tun_outer_id_unref (c : TunCtx)
    (ip_dst ip_src tun_id : Nat) : TunCtx :=
  match c.tun_to_outer_id_map.find?
      (fun d => d.tun_id = tun_id && d.ip_dst = ip_dst && d.ip_src = ip_src) with
  | none => c
  | some d =>
    if d.ref_count - 1 = 0 then
      let c := netdev_dpdk_tun_data_del c d.outer_id
      let remaining := c.tun_to_outer_id_map.filter
        (fun e => ¬(e.tun_id = tun_id && e.ip_dst = ip_dst && e.ip_src = ip_src))
      let c := { c with tun_to_outer_id_map := remaining }
      { c with pool := c.pool.map (fun p => id_pool_free_id p d.outer_id) }
    else
      let dropped := c.tun_to_outer_id_map.map
        (fun e => if e.tun_id = tun_id && e.ip_dst = ip_dst && e.ip_src = ip_src
                  then { e with ref_count := e.ref_count - 1 } else e)
      { c with tun_to_outer_id_map := dropped }

/-- netdev_dpdk_tun_id_get_ref: reuse an existing tuple's outer id
(refcount++) or allocate a fresh one with refcount 1. -/
def netdev_dpdk_tun_id_get_ref (c : TunCtx)
    (ip_dst ip_src tun_id : Nat) : Nat × TunCtx :=
  let (outer_id, c) := netdev_dpdk_tun_outer_id_get_ref c ip_dst ip_src tun_id
  if outer_id = INVALID_OUTER_ID then
    netdev_dpdk_tun_outer_id_alloc c ip_dst ip_src tun_id
  else (outer_id, c)

/-! ## The miss-context store

The source keeps TWO distinct cmaps: a file-scope
`static struct cmap mark_to_ct_ctx` and the member
`mark_preprocess_info.mark_to_ct_ctx`.  `netdev_dpdk_find_miss_ctx`
searches the latter; `netdev_dpdk_get_flow_miss_ctx` inserts new nodes
into the former; `netdev_dpdk_del_miss_ctx` searches the latter and
removes from the former.  The embedding keeps both maps separate exactly
as the source does. -/

/-- The conntrack variant of the mark_to_miss_ctx_data union. -/
structure CtMissCtx where
  ct_mark : Nat := 0
  ct_zone : Nat := 0
  ct_state : Nat := 0
  outer_id : Nat := 0
  rte_flow_init : Option Nat := none
  rte_flow_rep : Option Nat := none
  deriving Repr, DecidableEq

/-- The plain-flow variant of the union. -/
structure FlowMissCtx where
  outer_id : Nat := 0
  hw_id : Nat := 0
  is_port : Bool := false
  in_port : Nat := 0
  deriving Repr, DecidableEq

/-- struct mark_to_miss_ctx_data (the union is expanded; `type`
discriminates, as at every consumption site in the source). -/
structure MissData where
  mark : Nat := 0
  type : Nat := 0
  ct : CtMissCtx := {}
  flow : FlowMissCtx := {}
  deriving Repr, DecidableEq

def MARK_PREPROCESS_CT : Nat := 1
def MARK_PREPROCESS_FLOW_CT : Nat := 2
def MARK_PREPROCESS_FLOW : Nat := 4
def MARK_PREPROCESS_VXLAN : Nat := 8

/-- The two distinct cmaps of the source. -/
structure MissStore where
  /-- file-scope `static struct cmap mark_to_ct_ctx` -/
  mark_to_ct_ctx : List MissData := []
  /-- `mark_preprocess_info.mark_to_ct_ctx` -/
  preprocess_map : List MissData := []
  deriving Repr, DecidableEq

/-- netdev_dpdk_find_miss_ctx searches mark_preprocess_info.mark_to_ct_ctx. -/
def netdev_dpdk_find_miss_ctx (s : MissStore) (mark : Nat) : Option MissData :=
  s.preprocess_map.find? (fun d => d.mark = mark)

/-- netdev_dpdk_save_ct_miss_ctx (with netdev_dpdk_get_flow_miss_ctx
inlined): when `find` fails, a zeroed node is inserted into the file-scope
`mark_to_ct_ctx` map and then filled through the returned pointer; when
`find` succeeds the found node (in the preprocess map) is mutated in
place.  Returns -1 if the direction slot is already occupied. -/
def netdev_dpdk_save_ct_miss_ctx (s : MissStore) (mark flow ct_mark ct_zone
    ct_state outer_id : Nat) (reply : Bool) : Int × MissStore :=
  match netdev_dpdk_find_miss_ctx s mark with
  | some d =>
    let ct₁ := { d.ct with ct_mark := ct_mark, ct_zone := ct_zone,
                           ct_state := ct_state, outer_id := outer_id }
    let d₁ := { d with type := MARK_PREPROCESS_CT, mark := mark, ct := ct₁ }
    let occupied := if reply then d.ct.rte_flow_rep.isSome
                    else d.ct.rte_flow_init.isSome
    let d₂ := if occupied then d₁
              else if reply then { d₁ with ct := { ct₁ with rte_flow_rep := some flow } }
              else { d₁ with ct := { ct₁ with rte_flow_init := some flow } }
    let newPre := s.preprocess_map.map (fun e => if e.mark = mark then d₂ else e)
    ((if occupied then -1 else 0), { s with preprocess_map := newPre })
  | none =>
    -- get_flow_miss_ctx inserts a zeroed node into mark_to_ct_ctx
    let ct₁ : CtMissCtx := { ct_mark := ct_mark, ct_zone := ct_zone,
                             ct_state := ct_state, outer_id := outer_id }
    let d₁ : MissData := { type := MARK_PREPROCESS_CT, mark := mark, ct := ct₁ }
    let d₂ := if reply then { d₁ with ct := { ct₁ with rte_flow_rep := some flow } }
              else { d₁ with ct := { ct₁ with rte_flow_init := some flow } }
    (0, { s with mark_to_ct_ctx := d₂ :: s.mark_to_ct_ctx })

/-- netdev_dpdk_del_miss_ctx: searches the preprocess map and removes the
found node from the file-scope map (as the source does). -/
def netdev_dpdk_del_miss_ctx (s : MissStore) (mark : Nat) : MissStore :=
  match s.preprocess_map.find? (fun d => d.mark = mark) with
  | some _ =>
    { s with mark_to_ct_ctx := s.mark_to_ct_ctx.filter (fun d => d.mark ≠ mark) }
  | none => s

/-! ## Derived iteration and specification-side views -/

/-- Any sequence of ufid_hw_offload_add_rte_flow calls against one
identity record (the reachable records are exactly an alloc followed by
such a sequence). -/
def ufid_hw_offload_add_many (r : UfidHwOffload) (ops : List (Nat × Nat))
    (hw : Hw) : UfidHwOffload × Hw :=
  match ops with
  | [] => (r, hw)
  | (f, n) :: rest =>
    let (r, hw) := ufid_hw_offload_add_rte_flow r f n hw
    ufid_hw_offload_add_many r rest hw

/-- Specification-side view of the fan-out (written from the claim's
words, to be compared with the loop embedded from the source): each
uplink's outcome is independent — try the primary decap form, then the
mark+RSS fallback, record the handle on success, skip the uplink when both
fail.  Arguments: the uplink pattern of the port list and the scripted
driver responses. -/
def fanout_expected : List Bool → List (Option Nat) → List Nat
  | [], _ => []
  | b :: rest, resp =>
    if b then
      match resp with
      | some h :: rs => h :: fanout_expected rest rs
      | none :: some h :: rs => h :: fanout_expected rest rs
      | none :: none :: rs => fanout_expected rest rs
      | none :: [] => fanout_expected rest []
      | [] => fanout_expected rest []
    else fanout_expected rest resp

/-! ## Concrete scenarios used by witnesses and counterexamples -/

/-- C5 counterexample match: IPv4/UDP with full transport-port masks and,
additionally, a VLAN tag match. -/
def c5_cex_match : Match :=
  { flow := { dl_type := ETH_TYPE_IP, nw_proto := 17, tp_src := 80,
              tp_dst := 443, vlan_tci := 0x3001 },
    masks := { dl_type := 0xffff, nw_proto := 0xff, tp_src := 0xffff,
               tp_dst := 0xffff, vlan_tci := 0x1fff } }

/-- C5/C6 witness matches. -/
def c5_wit_match : Match :=
  { flow := { dl_type := ETH_TYPE_IP, nw_proto := 17, tp_src := 80,
              tp_dst := 443 },
    masks := { dl_type := 0xffff, nw_proto := 0xff, tp_src := 0xffff,
               tp_dst := 0xffff } }

/-- GRE (protocol 47) with a masked transport source port. -/
def c6_wit_match : Match :=
  { flow := { dl_type := ETH_TYPE_IP, nw_proto := 47 },
    masks := { dl_type := 0xffff, nw_proto := 0xff, tp_src := 0xffff } }

/-- A physical uplink DPDK port (dp_port 1). -/
def c1_netdev : Netdev := { id := 3, is_uplink := true }

def c1_port : PortEntry :=
  { dp_port := 1, netdev := c1_netdev, rte_port_type := RtePortType.dpdk,
    ufid_to_rte := [{ ufid := 9, max_flows := 1, flows := [(50, 3)] }] }

/-- C1 witness state: ufid 9 already offloaded on port 1 with handle 50;
the driver will grant handle 60 for the replacement flow. -/
def c1_state : OffState := { port_map := [c1_port], hw := { resp := [some 60] } }

/-- A plain IPv4/UDP match arriving on dp_port 1. -/
def c1_match : Match :=
  { flow := { dl_type := ETH_TYPE_IP, nw_proto := 17, in_port := 1 },
    masks := { dl_type := 0xffff, nw_proto := 0xff } }

/-- C3 scenario: dp_port 1 is the physical ingress port, dp_port 2 a VXLAN
vport with table id 2. -/
def c3_vport : PortEntry :=
  { dp_port := 2, netdev := { id := 7 }, rte_port_type := RtePortType.vxlan,
    table_id := 2 }

/-- C3 state: the driver grants handle 42 for the specific tunnel-pop flow
and then fails the per-table default flow creation. -/
def c3_state : OffState :=
  { port_map := [{ dp_port := 1, netdev := c1_netdev,
                   rte_port_type := RtePortType.dpdk },
                 c3_vport],
    dpdk_phy_ports_amount := 1,
    hw := { resp := [some 42, none] } }

/-- A C4 uplink DPDK port (dp_port 10+i, netdev id 100+i). -/
def c4_uplink (i : Nat) : PortEntry :=
  { dp_port := 10 + i, netdev := { id := 100 + i, is_uplink := true },
    rte_port_type := RtePortType.dpdk }

def c4_vport : PortEntry :=
  { dp_port := 2, netdev := { id := 7 }, rte_port_type := RtePortType.vxlan,
    table_id := 2 }

/-- C4 witness state: three registered uplinks; the driver grants handle
10 on uplink 1, fails both forms on uplink 2, grants 30 on uplink 3. -/
def c4_state : OffState :=
  { port_map := [c4_uplink 1, c4_uplink 2, c4_uplink 3, c4_vport],
    dpdk_phy_ports_amount := 3,
    hw := { resp := [some 10, none, none, some 30] } }

/-- A VXLAN tunnel match arriving on the vport (dp_port 2). -/
def c4_match : Match :=
  { flow := { dl_type := ETH_TYPE_IP, in_port := 2, tunnel_ip_src := 0x0a000001,
              tunnel_ip_dst := 0x0a000002, tunnel_tun_id := 7 <<< 32 },
    masks := { tunnel_ip_src := 0xffffffff, tunnel_ip_dst := 0xffffffff } }

/-- C9 counterexample: empty action list but a match constraining the
packet metadata field, which fails offload validation. -/
def c9_cex_match : Match :=
  { flow := c4_match.flow, masks := { c4_match.masks with metadata := 1 } }

/-! ## Theorems for the claims -/

/-- C2: saving a conntrack payload under mark 7 in the miss-context store
and then looking mark 7 up does NOT return the payload: the lookup returns
not-found, because netdev_dpdk_save_ct_miss_ctx inserts new nodes into the
file-scope cmap `mark_to_ct_ctx` while netdev_dpdk_find_miss_ctx searches
the distinct cmap `mark_preprocess_info.mark_to_ct_ctx`.  This refutes the
claimed save/find round-trip on the code as written. -/
theorem c2_miss_ctx_save_find_roundtrip_fails :
    (netdev_dpdk_save_ct_miss_ctx {} 7 100 0 3 5 0 false).1 = 0 ∧
    netdev_dpdk_find_miss_ctx
      (netdev_dpdk_save_ct_miss_ctx {} 7 100 0 3 5 0 false).2 7 = none := by
  decide

/-- C3: for a tunnel-pop flow whose specific hardware flow was installed
(handle 42) and whose per-table default flow then fails to be created, the
orchestrator does NOT destroy the just-installed specific flow and the
flow_put request still returns success: the `goto out; /* ASAF TEMP */`
jumps over the rollback, the trace holds no destroy, and flow_put returns
0.  This exhibits the code bug against the claimed rollback. -/
theorem c3_default_flow_failure_keeps_specific_flow :
    (netdev_rte_offloads_add_flow c3_state c1_match [NlAction.tunnelPop 2]).1
      = some 42 ∧
    (netdev_rte_offloads_add_flow c3_state c1_match
       [NlAction.tunnelPop 2]).2.hw.trace
      = [DriverOp.create (some 42), DriverOp.create none] ∧
    (netdev_rte_offloads_flow_put c3_state c1_netdev c1_match
       [NlAction.tunnelPop 2] 77).1 = 0 := by
  decide

/-- C9 counterexample: a flow_put on a VXLAN virtual port with an empty
action list but a match constraining packet metadata returns EOPNOTSUPP,
not 0 — netdev_rte_vport_flow_put validates the match before the
empty-action early return. -/
theorem c9_invalid_match_empty_actions_fails :
    netdev_rte_vport_flow_put c4_state c9_cex_match [] 9
      = (EOPNOTSUPP, c4_state) ∧ EOPNOTSUPP ≠ 0 := by
  decide

/-- C9 (amended): for every flow_put request on a VXLAN virtual port whose
match passes offload validation and whose action list is empty or null,
the operation returns success (0) immediately with the state unchanged: no
existing offload for the ufid is destroyed, no identity record is
allocated, and the driver is not called. -/
theorem c9_empty_actions_noop (s : OffState) (m : Match) (ufid : Nat)
    (hvalid : netdev_rte_offloads_validate_flow m true = true) :
    netdev_rte_vport_flow_put s m [] ufid = (0, s) := by
  unfold netdev_rte_vport_flow_put
  rw [hvalid]
  simp only [Bool.not_true, Bool.false_eq_true, if_false]
  cases hs : netdev_rte_port_search m.flow.in_port s.port_map with
  | none => rfl
  | some rte_port =>
    simp only []
    by_cases hv : rte_port.rte_port_type = RtePortType.vxlan
    · simp only [hv, if_true]
      unfold netdev_vport_vxlan_add_rte_flow_offload
      rfl
    · simp [hv]

/-- C9 witness: a valid tunnel match with an empty action list. -/
theorem c9_empty_actions_noop_witness :
    netdev_rte_vport_flow_put c4_state c4_match [] 9 = (0, c4_state) :=
  c9_empty_actions_noop c4_state c4_match 9 (by decide)

/-- helper for C10 -/
theorem ufid_to_portid_search_remove (map : List (Nat × Nat)) (ufid : Nat) :
    ufid_to_portid_search ufid (ufid_to_portid_remove map ufid)
      = INVALID_ODP_PORT := by
  unfold ufid_to_portid_search ufid_to_portid_remove
  rw [List.find?_eq_none.mpr]
  · intro x hx
    have := (List.mem_filter.mp hx).2
    simpa using this

/-- C10: for every ufid already present in the ufid-to-port reverse map
(mapped to p), adding a mapping for that ufid with any port q returns q as
if saved but leaves the map unchanged and still answering p; only after
the ufid is removed does a new add actually store q. -/
theorem c10_add_existing_ufid_keeps_mapping (map : List (Nat × Nat))
    (ufid p q : Nat)
    (hp : ufid_to_portid_search ufid map = p)
    (hvalid : p ≠ INVALID_ODP_PORT) :
    ufid_to_portid_add map ufid q = (q, map) ∧
    ufid_to_portid_search ufid (ufid_to_portid_add map ufid q).2 = p ∧
    ufid_to_portid_search ufid (ufid_to_portid_remove map ufid)
      = INVALID_ODP_PORT ∧
    ufid_to_portid_search ufid
      (ufid_to_portid_add (ufid_to_portid_remove map ufid) ufid q).2 = q := by
  have hadd : ufid_to_portid_add map ufid q = (q, map) := by
    unfold ufid_to_portid_add
    rw [hp, if_pos hvalid]
  refine ⟨hadd, ?_, ufid_to_portid_search_remove map ufid, ?_⟩
  · rw [hadd]; exact hp
  · unfold ufid_to_portid_add
    rw [ufid_to_portid_search_remove map ufid, if_neg (by simp)]
    unfold ufid_to_portid_search
    simp [List.find?_cons]

/-- C10 witness: ufid 9 mapped to port 1; re-adding with port 2. -/
theorem c10_add_existing_ufid_keeps_mapping_witness :
    ufid_to_portid_add [(9, 1)] 9 2 = (2, [(9, 1)]) ∧
    ufid_to_portid_search 9 (ufid_to_portid_add [(9, 1)] 9 2).2 = 1 ∧
    ufid_to_portid_search 9 (ufid_to_portid_remove [(9, 1)] 9)
      = INVALID_ODP_PORT ∧
    ufid_to_portid_search 9
      (ufid_to_portid_add (ufid_to_portid_remove [(9, 1)] 9) 9 2).2 = 2 :=
  c10_add_existing_ufid_keeps_mapping [(9, 1)] 9 1 2 (by decide) (by decide)

/-- helper for C8 -/
theorem ufid_hw_offload_add_many_spec (ops : List (Nat × Nat))
    (r : UfidHwOffload) (hw : Hw) :
    (ufid_hw_offload_add_many r ops hw).1.flows
        = r.flows ++ ops.take (r.max_flows - r.flows.length) ∧
    (ufid_hw_offload_add_many r ops hw).1.max_flows = r.max_flows ∧
    (ufid_hw_offload_add_many r ops hw).2.trace
        = hw.trace ++ (ops.drop (r.max_flows - r.flows.length)).map
            (fun q => DriverOp.destroy q.1) := by
  induction ops generalizing r hw with
  | nil => simp [ufid_hw_offload_add_many]
  | cons op rest ih =>
    obtain ⟨f, n⟩ := op
    by_cases h : r.flows.length < r.max_flows
    · have hk : r.max_flows - r.flows.length
          = (r.max_flows - (r.flows.length + 1)) + 1 := by omega
      simp only [ufid_hw_offload_add_many, ufid_hw_offload_add_rte_flow,
                 if_pos h]
      obtain ⟨ih1, ih2, ih3⟩ := ih { r with flows := r.flows ++ [(f, n)] } hw
      refine ⟨?_, ih2, ?_⟩
      · rw [ih1]; simp [hk, List.append_assoc]
      · rw [ih3]; simp [hk]
    · have hk : r.max_flows - r.flows.length = 0 := by omega
      simp only [ufid_hw_offload_add_many, ufid_hw_offload_add_rte_flow,
                 if_neg h]
      obtain ⟨ih1, ih2, ih3⟩ := ih r (hw.flow_destroy f)
      refine ⟨?_, ih2, ?_⟩
      · rw [ih1, hk]; simp
      · rw [ih3, hk]; simp [Hw.flow_destroy, List.append_assoc]

/-- C8: for every flow identity record (an alloc followed by any sequence
of handle installs), the fill count never exceeds the capacity fixed at
creation: exactly the first `max_flows` handles are recorded, and every
handle offered once the record is full is not recorded but immediately
destroyed through the driver (no silent leak). -/
theorem c8_fill_bounded_and_overflow_destroyed (max_flows ufid : Nat)
    (ops : List (Nat × Nat)) (hw : Hw) :
    (ufid_hw_offload_add_many
        (netdev_rte_port_ufid_hw_offload_alloc max_flows ufid) ops hw).1.flows.length
      ≤ max_flows ∧
    (ufid_hw_offload_add_many
        (netdev_rte_port_ufid_hw_offload_alloc max_flows ufid) ops hw).1.flows
      = ops.take max_flows ∧
    (ufid_hw_offload_add_many
        (netdev_rte_port_ufid_hw_offload_alloc max_flows ufid) ops hw).2.trace
      = hw.trace ++ (ops.drop max_flows).map (fun q => DriverOp.destroy q.1) := by
  obtain ⟨h1, h2, h3⟩ :=
    ufid_hw_offload_add_many_spec ops
      (netdev_rte_port_ufid_hw_offload_alloc max_flows ufid) hw
  have ha : (netdev_rte_port_ufid_hw_offload_alloc max_flows ufid).flows = [] := rfl
  have hb : (netdev_rte_port_ufid_hw_offload_alloc max_flows ufid).max_flows
      = max_flows := rfl
  rw [ha, hb] at h1 h3
  simp only [List.nil_append, List.length_nil, Nat.sub_zero] at h1 h3
  refine ⟨?_, h1, h3⟩
  rw [h1]
  simp [List.length_take]

/-- helper: the resolved protocol of the IPv4 step under an IPv4 ethertype. -/
theorem add_flow_patterns_ipv4_eq (m : Match) (st : PatternResult)
    (hip : m.flow.dl_type = ETH_TYPE_IP) :
    add_flow_patterns_ipv4 m st
      = ({ items := st.items ++ [ItemType.ipv4],
           spec := { st.spec with ipv4_tos := m.flow.nw_tos,
                                  ipv4_ttl := m.flow.nw_ttl,
                                  ipv4_proto := m.flow.nw_proto,
                                  ipv4_src := m.flow.nw_src,
                                  ipv4_dst := m.flow.nw_dst },
           mask := { st.mask with ipv4_tos := m.masks.nw_tos,
                                  ipv4_ttl := m.masks.nw_ttl,
                                  ipv4_proto := m.masks.nw_proto,
                                  ipv4_src := m.masks.nw_src,
                                  ipv4_dst := m.masks.nw_dst } },
         m.flow.nw_proto &&& m.masks.nw_proto) := by
  unfold add_flow_patterns_ipv4
  rw [if_pos hip]

/-- helper: add_flow_patterns as an explicit composition of its steps. -/
theorem add_flow_patterns_comp (m : Match) :
    add_flow_patterns m
      = add_flow_patterns_l4 m
          (add_flow_patterns_ipv4 m
            (add_flow_patterns_vlan m (add_flow_patterns_eth m))).2
          (add_flow_patterns_ipv4 m
            (add_flow_patterns_vlan m (add_flow_patterns_eth m))).1 := rfl

/-- C6: for every IPv4 match whose resolved (spec AND mask) protocol is
none of ICMP, UDP, SCTP, TCP but which still masks a transport source
port, transport destination port, or TCP flags, pattern translation fails
(add_flow_patterns returns none) instead of dropping the constraint. -/
theorem c6_unsupported_proto_with_l4_mask_fails (m : Match)
    (hip : m.flow.dl_type = ETH_TYPE_IP)
    (h1 : m.flow.nw_proto &&& m.masks.nw_proto ≠ IPPROTO_ICMP)
    (h2 : m.flow.nw_proto &&& m.masks.nw_proto ≠ IPPROTO_UDP)
    (h3 : m.flow.nw_proto &&& m.masks.nw_proto ≠ IPPROTO_SCTP)
    (h4 : m.flow.nw_proto &&& m.masks.nw_proto ≠ IPPROTO_TCP)
    (hl4 : m.masks.tp_src ≠ 0 ∨ m.masks.tp_dst ≠ 0 ∨ m.masks.tcp_flags ≠ 0) :
    add_flow_patterns m = none := by
  rw [add_flow_patterns_comp m,
      add_flow_patterns_ipv4_eq m (add_flow_patterns_vlan m (add_flow_patterns_eth m)) hip]
  unfold add_flow_patterns_l4
  rw [if_pos ?_]
  rcases hl4 with h | h | h <;> simp [h1, h2, h3, h4, h]

/-- C6 witness: GRE (protocol 47) with a masked source port fails. -/
theorem c6_unsupported_proto_with_l4_mask_fails_witness :
    add_flow_patterns c6_wit_match = none :=
  c6_unsupported_proto_with_l4_mask_fails c6_wit_match (by decide) (by decide)
    (by decide) (by decide) (by decide) (Or.inl (by decide))

/-- C5 counterexample: a match satisfying the claim hypotheses (IPv4
ethertype, masked protocol resolving to UDP, full-width transport-port
masks) that additionally matches a VLAN tag compiles to
[ETH, VLAN, IPV4, UDP, END], not to the claimed exact sequence
[ETH, IPV4, UDP, END]. -/
theorem c5_vlan_match_breaks_exact_sequence :
    c5_cex_match.flow.dl_type = ETH_TYPE_IP ∧
    c5_cex_match.flow.nw_proto &&& c5_cex_match.masks.nw_proto = IPPROTO_UDP ∧
    c5_cex_match.masks.tp_src = OVS_BE16_MAX ∧
    c5_cex_match.masks.tp_dst = OVS_BE16_MAX ∧
    (offloads_add_flow_pattern_phase c5_cex_match).map PatternResult.items
      = some [ItemType.eth, ItemType.vlan, ItemType.ipv4, ItemType.udp,
              ItemType.END] ∧
    (offloads_add_flow_pattern_phase c5_cex_match).map PatternResult.items
      ≠ some [ItemType.eth, ItemType.ipv4, ItemType.udp, ItemType.END] := by
  decide

/-- C5 (amended): for every match whose ethertype is IPv4, whose masked
IPv4 protocol resolves to UDP, which sets transport ports with masks that
are absent or full-width, and which does not match a VLAN tag, the pattern
compiler produces exactly [ETH, IPV4, UDP, END] with the IPv4 item's
next-protocol mask cleared to zero after the UDP item is emitted. -/
theorem c5_udp_pattern_sequence (m : Match)
    (hip : m.flow.dl_type = ETH_TYPE_IP)
    (hproto : m.flow.nw_proto &&& m.masks.nw_proto = IPPROTO_UDP)
    (hvlan : ¬(m.masks.vlan_tci ≠ 0 ∧ m.flow.vlan_tci ≠ 0))
    (hsrc : m.masks.tp_src = 0 ∨ m.masks.tp_src = OVS_BE16_MAX)
    (hdst : m.masks.tp_dst = 0 ∨ m.masks.tp_dst = OVS_BE16_MAX)
    (hset : m.masks.tp_src ≠ 0 ∨ m.masks.tp_dst ≠ 0) :
    ∃ r, offloads_add_flow_pattern_phase m = some r ∧
      r.items = [ItemType.eth, ItemType.ipv4, ItemType.udp, ItemType.END] ∧
      r.mask.ipv4_proto = 0 := by
  have heth : (add_flow_patterns_eth m).items = [ItemType.eth] := by
    unfold add_flow_patterns_eth
    split <;> rfl
  have hvl : add_flow_patterns_vlan m (add_flow_patterns_eth m)
      = add_flow_patterns_eth m := by
    unfold add_flow_patterns_vlan
    rw [if_neg (by simpa using hvlan)]
  have hafp : ∃ st0 : PatternResult, st0.items = [ItemType.eth, ItemType.ipv4] ∧
      add_flow_patterns m
        = add_flow_patterns_l4 m IPPROTO_UDP st0 := by
    refine ⟨(add_flow_patterns_ipv4 m (add_flow_patterns_eth m)).1, ?_, ?_⟩
    · rw [add_flow_patterns_ipv4_eq m _ hip]
      simp [heth]
    · rw [add_flow_patterns_comp m, hvl,
          add_flow_patterns_ipv4_eq m _ hip, ← hproto]
  obtain ⟨st0, hst0, hafp⟩ := hafp
  have hl4 : add_flow_patterns_l4 m IPPROTO_UDP st0
      = some { items := st0.items ++ [ItemType.udp],
               spec := { st0.spec with l4_src_port := m.flow.tp_src,
                                       l4_dst_port := m.flow.tp_dst },
               mask := { st0.mask with l4_src_port := m.masks.tp_src,
                                       l4_dst_port := m.masks.tp_dst,
                                       ipv4_proto := 0 } } := by
    unfold add_flow_patterns_l4
    rw [if_neg (by simp), if_neg ?_, if_neg (by decide), if_pos rfl]
    rcases hsrc with h | h <;> rcases hdst with h' | h' <;> simp [h, h']
  have hphase : offloads_add_flow_pattern_phase m
      = (add_flow_patterns m).map
          (fun r => { r with items := r.items ++ [ItemType.END] }) := rfl
  rw [hphase, hafp, hl4]
  refine ⟨_, rfl, ?_, ?_⟩
  · simp [hst0]
  · rfl

/-- helper: outer_id_get_ref when the tuple is absent. -/
theorem netdev_dpdk_tun_outer_id_get_ref_none (c : TunCtx)
    (ip_dst ip_src tun_id : Nat)
    (h : c.tun_to_outer_id_map.find?
        (fun d => d.tun_id = tun_id && d.ip_dst = ip_dst && d.ip_src = ip_src)
        = none) :
    netdev_dpdk_tun_outer_id_get_ref c ip_dst ip_src tun_id
      = (INVALID_OUTER_ID, c) := by
  unfold netdev_dpdk_tun_outer_id_get_ref
  rw [h]

/-- helper: outer_id_get_ref when the tuple is present bumps its refcount. -/
theorem netdev_dpdk_tun_outer_id_get_ref_found (c : TunCtx)
    (ip_dst ip_src tun_id : Nat) (d : TunData)
    (h : c.tun_to_outer_id_map.find?
        (fun d => d.tun_id = tun_id && d.ip_dst = ip_dst && d.ip_src = ip_src)
        = some d) :
    netdev_dpdk_tun_outer_id_get_ref c ip_dst ip_src tun_id
      = (d.outer_id,
         { c with tun_to_outer_id_map := c.tun_to_outer_id_map.map (fun e => if e.tun_id = tun_id && e.ip_dst = ip_dst && e.ip_src = ip_src then { e with ref_count := e.ref_count + 1 } else e) }) := by
  unfold netdev_dpdk_tun_outer_id_get_ref
  rw [h]

/-- helper: mapping a function that fixes every entry failing the tuple
predicate over a map whose entries all fail it is the identity. -/
theorem tun_map_fixed (tun_id ip_dst ip_src : Nat) (f : TunData → TunData)
    (hf : ∀ e : TunData,
      (e.tun_id = tun_id && e.ip_dst = ip_dst && e.ip_src = ip_src) = false →
        f e = e) :
    ∀ l : List TunData,
      (∀ e ∈ l,
        (e.tun_id = tun_id && e.ip_dst = ip_dst && e.ip_src = ip_src) = false) →
      l.map f = l := by
  intro l
  induction l with
  | nil => intro _; rfl
  | cons a t ih =>
    intro hl
    simp only [List.map_cons]
    rw [hf a (hl a (by simp)), ih (fun e he => hl e (by simp [he]))]

/-- helper: filtering on the negated tuple predicate keeps a list whose
entries all fail the predicate. -/
theorem tun_filter_fixed (tun_id ip_dst ip_src : Nat) :
    ∀ l : List TunData,
      (∀ e ∈ l,
        (e.tun_id = tun_id && e.ip_dst = ip_dst && e.ip_src = ip_src) = false) →
      l.filter (fun e => ¬(e.tun_id = tun_id && e.ip_dst = ip_dst && e.ip_src = ip_src)) = l := by
  intro l
  induction l with
  | nil => intro _; rfl
  | cons a t ih =>
    intro hl
    rw [List.filter_cons_of_pos (by simp [hl a (by simp)]),
        ih (fun e he => hl e (by simp [he]))]

/-- helper: get_ref on a state whose forward map has the tuple at the head
bumps only the head's refcount. -/
theorem tun_get_ref_head (rest outmap : List TunData) (pool : Option IdPool)
    (ip_dst ip_src tun_id id k : Nat) (hid : id ≠ INVALID_OUTER_ID)
    (hrest : ∀ e ∈ rest,
      (e.tun_id = tun_id && e.ip_dst = ip_dst && e.ip_src = ip_src) = false) :
    netdev_dpdk_tun_id_get_ref
      { outer_id_to_tun_map := outmap,
        tun_to_outer_id_map := { outer_id := id, ip_dst := ip_dst, ip_src := ip_src, tun_id := tun_id, ref_count := k } :: rest,
        pool := pool } ip_dst ip_src tun_id
      = (id,
         { outer_id_to_tun_map := outmap,
           tun_to_outer_id_map := { outer_id := id, ip_dst := ip_dst, ip_src := ip_src, tun_id := tun_id, ref_count := k + 1 } :: rest,
           pool := pool }) := by
  unfold netdev_dpdk_tun_id_get_ref
  rw [netdev_dpdk_tun_outer_id_get_ref_found _ ip_dst ip_src tun_id _
        (List.find?_cons_of_pos _ (by simp))]
  dsimp only
  rw [if_neg hid, List.map_cons]
  dsimp only
  rw [if_pos (by simp),
      tun_map_fixed tun_id ip_dst ip_src _
        (fun e he => by rw [if_neg (by simp [he])]) rest hrest]

/-- helper: unref on a head-tuple state with remaining references only
decrements the head. -/
theorem tun_unref_head_pos (rest outmap : List TunData) (pool : Option IdPool)
    (ip_dst ip_src tun_id id k : Nat) (hk : ¬(k - 1 = 0))
    (hrest : ∀ e ∈ rest,
      (e.tun_id = tun_id && e.ip_dst = ip_dst && e.ip_src = ip_src) = false) :
    netdev_dpdk_tun_outer_id_unref
      { outer_id_to_tun_map := outmap,
        tun_to_outer_id_map := { outer_id := id, ip_dst := ip_dst, ip_src := ip_src, tun_id := tun_id, ref_count := k } :: rest,
        pool := pool } ip_dst ip_src tun_id
      = { outer_id_to_tun_map := outmap,
          tun_to_outer_id_map := { outer_id := id, ip_dst := ip_dst, ip_src := ip_src, tun_id := tun_id, ref_count := k - 1 } :: rest,
          pool := pool } := by
  unfold netdev_dpdk_tun_outer_id_unref
  rw [List.find?_cons_of_pos _ (by simp)]
  dsimp only
  rw [if_neg hk, List.map_cons]
  dsimp only
  rw [if_pos (by simp),
      tun_map_fixed tun_id ip_dst ip_src _
        (fun e he => by rw [if_neg (by simp [he])]) rest hrest]

/-- helper: unref on a head-tuple state with the last reference removes
the entry from both maps and returns the id to the pool. -/
theorem tun_unref_head_last (rest outmap : List TunData) (pool : Option IdPool)
    (ip_dst ip_src tun_id id k : Nat) (hk : k - 1 = 0)
    (hrest : ∀ e ∈ rest,
      (e.tun_id = tun_id && e.ip_dst = ip_dst && e.ip_src = ip_src) = false) :
    netdev_dpdk_tun_outer_id_unref
      { outer_id_to_tun_map := outmap,
        tun_to_outer_id_map := { outer_id := id, ip_dst := ip_dst, ip_src := ip_src, tun_id := tun_id, ref_count := k } :: rest,
        pool := pool } ip_dst ip_src tun_id
      = { outer_id_to_tun_map := outmap.filter (fun d => d.outer_id ≠ id),
          tun_to_outer_id_map := rest,
          pool := pool.map (fun p => id_pool_free_id p id) } := by
  unfold netdev_dpdk_tun_outer_id_unref
  rw [List.find?_cons_of_pos _ (by simp)]
  dsimp only
  rw [if_pos hk]
  unfold netdev_dpdk_tun_data_del
  dsimp only
  rw [List.filter_cons_of_neg (by simp),
      tun_filter_fixed tun_id ip_dst ip_src rest hrest]

/-- C7: for two allocations against the identical tunnel 3-tuple, the
second returns the same outer-id as the first and raises the shared
refcount to 2; one unref drops the count to 1 without releasing the id or
removing either index entry (forward map still holds the tuple at count 1,
the reverse map still resolves the id, the pool is untouched); the second
unref removes the entries from both maps and returns the id to the pool's
free list. -/
theorem c7_outer_id_refcount_lifecycle (c : TunCtx) (ip_dst ip_src tun_id id : Nat)
    (habs : c.tun_to_outer_id_map.find?
        (fun d => d.tun_id = tun_id && d.ip_dst = ip_dst && d.ip_src = ip_src)
        = none)
    (halloc : (id_pool_alloc_id
        (c.pool.getD (id_pool_create 1 MAX_OUTER_ID))).1 = some id)
    (hid : id ≠ INVALID_OUTER_ID) :
    (netdev_dpdk_tun_id_get_ref c ip_dst ip_src tun_id).1 = id ∧
    (netdev_dpdk_tun_id_get_ref
        (netdev_dpdk_tun_id_get_ref c ip_dst ip_src tun_id).2
        ip_dst ip_src tun_id).1 = id ∧
    (((netdev_dpdk_tun_id_get_ref
        (netdev_dpdk_tun_id_get_ref c ip_dst ip_src tun_id).2
        ip_dst ip_src tun_id).2).tun_to_outer_id_map.find?
          (fun d => d.tun_id = tun_id && d.ip_dst = ip_dst && d.ip_src = ip_src)).map
        TunData.ref_count = some 2 ∧
    ((netdev_dpdk_tun_outer_id_unref
        (netdev_dpdk_tun_id_get_ref
          (netdev_dpdk_tun_id_get_ref c ip_dst ip_src tun_id).2
          ip_dst ip_src tun_id).2 ip_dst ip_src tun_id).tun_to_outer_id_map.find?
          (fun d => d.tun_id = tun_id && d.ip_dst = ip_dst && d.ip_src = ip_src)).map
        TunData.ref_count = some 1 ∧
    (netdev_dpdk_tun_data_find
        (netdev_dpdk_tun_outer_id_unref
          (netdev_dpdk_tun_id_get_ref
            (netdev_dpdk_tun_id_get_ref c ip_dst ip_src tun_id).2
            ip_dst ip_src tun_id).2 ip_dst ip_src tun_id) id).isSome ∧
    (netdev_dpdk_tun_outer_id_unref
        (netdev_dpdk_tun_id_get_ref
          (netdev_dpdk_tun_id_get_ref c ip_dst ip_src tun_id).2
          ip_dst ip_src tun_id).2 ip_dst ip_src tun_id).pool
      = (netdev_dpdk_tun_id_get_ref
          (netdev_dpdk_tun_id_get_ref c ip_dst ip_src tun_id).2
          ip_dst ip_src tun_id).2.pool ∧
    (netdev_dpdk_tun_outer_id_unref
        (netdev_dpdk_tun_outer_id_unref
          (netdev_dpdk_tun_id_get_ref
            (netdev_dpdk_tun_id_get_ref c ip_dst ip_src tun_id).2
            ip_dst ip_src tun_id).2 ip_dst ip_src tun_id)
        ip_dst ip_src tun_id).tun_to_outer_id_map.find?
          (fun d => d.tun_id = tun_id && d.ip_dst = ip_dst && d.ip_src = ip_src)
      = none ∧
    netdev_dpdk_tun_data_find
        (netdev_dpdk_tun_outer_id_unref
          (netdev_dpdk_tun_outer_id_unref
            (netdev_dpdk_tun_id_get_ref
              (netdev_dpdk_tun_id_get_ref c ip_dst ip_src tun_id).2
              ip_dst ip_src tun_id).2 ip_dst ip_src tun_id)
          ip_dst ip_src tun_id) id = none ∧
    ∃ p, (netdev_dpdk_tun_outer_id_unref
        (netdev_dpdk_tun_outer_id_unref
          (netdev_dpdk_tun_id_get_ref
            (netdev_dpdk_tun_id_get_ref c ip_dst ip_src tun_id).2
            ip_dst ip_src tun_id).2 ip_dst ip_src tun_id)
        ip_dst ip_src tun_id).pool = some p ∧ id ∈ p.freed := by
  have hrest : ∀ e ∈ c.tun_to_outer_id_map,
      (e.tun_id = tun_id && e.ip_dst = ip_dst && e.ip_src = ip_src) = false := by
    intro e he
    have := List.find?_eq_none.mp habs e he
    simpa using this
  have hp1 : id_pool_alloc_id (c.pool.getD (id_pool_create 1 MAX_OUTER_ID))
      = (some id,
         (id_pool_alloc_id (c.pool.getD (id_pool_create 1 MAX_OUTER_ID))).2) := by
    rw [← halloc]
  -- step 1: first get_ref allocates a fresh id with refcount 1
  have h1 : netdev_dpdk_tun_id_get_ref c ip_dst ip_src tun_id
      = (id,
         { outer_id_to_tun_map :=
             { outer_id := id, ip_dst := ip_dst, ip_src := ip_src,
               tun_id := tun_id } :: c.outer_id_to_tun_map,
           tun_to_outer_id_map :=
             { outer_id := id, ip_dst := ip_dst, ip_src := ip_src,
               tun_id := tun_id, ref_count := 1 } :: c.tun_to_outer_id_map,
           pool := some (id_pool_alloc_id
             (c.pool.getD (id_pool_create 1 MAX_OUTER_ID))).2 }) := by
    unfold netdev_dpdk_tun_id_get_ref
    rw [netdev_dpdk_tun_outer_id_get_ref_none c ip_dst ip_src tun_id habs]
    dsimp only
    rw [if_pos rfl]
    unfold netdev_dpdk_tun_outer_id_alloc
    dsimp only
    rw [hp1]
    rfl
  have h2 := tun_get_ref_head c.tun_to_outer_id_map
    ({ outer_id := id, ip_dst := ip_dst, ip_src := ip_src, tun_id := tun_id } :: c.outer_id_to_tun_map)
    (some (id_pool_alloc_id (c.pool.getD (id_pool_create 1 MAX_OUTER_ID))).2)
    ip_dst ip_src tun_id id 1 hid hrest
  have h3 := tun_unref_head_pos c.tun_to_outer_id_map
    ({ outer_id := id, ip_dst := ip_dst, ip_src := ip_src, tun_id := tun_id } :: c.outer_id_to_tun_map)
    (some (id_pool_alloc_id (c.pool.getD (id_pool_create 1 MAX_OUTER_ID))).2)
    ip_dst ip_src tun_id id (1 + 1) (by decide) hrest
  have h4 := tun_unref_head_last c.tun_to_outer_id_map
    ({ outer_id := id, ip_dst := ip_dst, ip_src := ip_src, tun_id := tun_id } :: c.outer_id_to_tun_map)
    (some (id_pool_alloc_id (c.pool.getD (id_pool_create 1 MAX_OUTER_ID))).2)
    ip_dst ip_src tun_id id (1 + 1 - 1) (by decide) hrest
  rw [h1]
  dsimp only
  rw [h2]
  dsimp only
  rw [h3, h4]
  refine ⟨rfl, rfl, ?_, ?_, ?_, rfl, ?_, ?_, ?_⟩
  · rw [List.find?_cons_of_pos _ (by simp)]
    rfl
  · rw [List.find?_cons_of_pos _ (by simp)]
    rfl
  · unfold netdev_dpdk_tun_data_find
    rw [List.find?_cons_of_pos _ (by simp)]
    rfl
  · exact habs
  · unfold netdev_dpdk_tun_data_find
    refine List.find?_eq_none.mpr ?_
    intro x hx
    have := (List.mem_filter.mp hx).2
    simpa using this
  · exact ⟨_, rfl, by simp [id_pool_free_id]⟩


/-- C7 witness at a concrete empty context and tuple (10, 20, 30). -/
theorem c7_outer_id_refcount_lifecycle_witness :
    (netdev_dpdk_tun_id_get_ref ⟨[], [], none⟩ 10 20 30).1 = 1 :=
  (c7_outer_id_refcount_lifecycle ⟨[], [], none⟩ 10 20 30 1 rfl (by decide)
    (by decide)).1

/-- C5 witness at a concrete IPv4/UDP match with both port masks full. -/
theorem c5_udp_pattern_sequence_witness :
    ∃ r, offloads_add_flow_pattern_phase c5_wit_match = some r ∧
      r.items = [ItemType.eth, ItemType.ipv4, ItemType.udp, ItemType.END] ∧
      r.mask.ipv4_proto = 0 :=
  c5_udp_pattern_sequence c5_wit_match (by decide) (by decide) (by decide)
    (Or.inr (by decide)) (Or.inr (by decide)) (Or.inl (by decide))

/-- helper: a driver create appends exactly one create op to the trace. -/
theorem Hw.flow_create_trace (hw : Hw) :
    (hw.flow_create).2.trace
      = hw.trace ++ [DriverOp.create (hw.flow_create).1] := by
  obtain ⟨resp, trace⟩ := hw
  cases resp <;> rfl

/-- helper: freeing an identity record appends exactly the destroys of its
recorded handles. -/
theorem netdev_rte_port_ufid_hw_offload_free_trace (r : UfidHwOffload) :
    ∀ hw : Hw, (netdev_rte_port_ufid_hw_offload_free r hw).trace
      = hw.trace ++ r.flows.map (fun q => DriverOp.destroy q.1) := by
  unfold netdev_rte_port_ufid_hw_offload_free
  generalize r.flows = l
  induction l with
  | nil => intro hw; simp
  | cons a t ih =>
    intro hw
    simp only [List.foldl_cons, List.map_cons]
    rw [ih]
    simp [Hw.flow_destroy]

/-- helper: netdev_rte_offloads_add_flow only ever appends create ops to
the driver trace (no destroy is reachable: the rollback behind the
`goto out` is dead code). -/
theorem netdev_rte_offloads_add_flow_creates (s : OffState) (m : Match)
    (acts : List NlAction) :
    ∃ t, (netdev_rte_offloads_add_flow s m acts).2.hw.trace
        = s.hw.trace ++ t ∧ ∀ op ∈ t, op.isCreate = true := by
  have hbase : ∃ t, s.hw.trace = s.hw.trace ++ t ∧
      ∀ op ∈ t, op.isCreate = true := ⟨[], by simp, by simp⟩
  have hstep : ∀ hw : Hw,
      (∃ t, hw.trace = s.hw.trace ++ t ∧ ∀ op ∈ t, op.isCreate = true) →
      ∃ t, (hw.flow_create).2.trace = s.hw.trace ++ t ∧
        ∀ op ∈ t, op.isCreate = true := by
    rintro hw ⟨t, h1, h2⟩
    refine ⟨t ++ [DriverOp.create (hw.flow_create).1], ?_, ?_⟩
    · rw [Hw.flow_create_trace, h1, List.append_assoc]
    · intro op hop
      rcases List.mem_append.mp hop with h | h
      · exact h2 op h
      · rw [List.mem_singleton.mp h]
        rfl
  unfold netdev_rte_offloads_add_flow
  split
  · exact hbase
  · dsimp only
    repeat' split
    all_goals first
      | exact hbase
      | exact hstep s.hw hbase
      | exact hstep _ (hstep s.hw hbase)
      | exact hstep _ (hstep _ (hstep s.hw hbase))

/-- helper: a found port entry carries the searched dp_port. -/
theorem netdev_rte_port_search_dp (q : Nat) (l : List PortEntry)
    (r : PortEntry) (h : netdev_rte_port_search q l = some r) :
    r.dp_port = q := by
  unfold netdev_rte_port_search at h
  have := List.find?_some h
  simpa using this

/-- helper: searching an updated port map. -/
theorem netdev_rte_port_search_update (pe : PortEntry) (q : Nat)
    (l : List PortEntry) :
    netdev_rte_port_search q (update_port pe l)
      = (netdev_rte_port_search q l).map
          (fun r => if r.dp_port = pe.dp_port then pe else r) := by
  induction l with
  | nil => rfl
  | cons a t ih =>
    unfold update_port netdev_rte_port_search
    unfold update_port netdev_rte_port_search at ih
    simp only [List.map_cons]
    by_cases h1 : a.dp_port = pe.dp_port
    · rw [if_pos h1]
      by_cases hq : a.dp_port = q
      · rw [List.find?_cons_of_pos _ (by simp [← h1, hq]),
            List.find?_cons_of_pos _ (by simp [hq])]
        simp [h1]
      · rw [List.find?_cons_of_neg _ (by simp [← h1, hq]),
            List.find?_cons_of_neg _ (by simp [hq])]
        exact ih
    · rw [if_neg h1]
      by_cases hq : a.dp_port = q
      · rw [List.find?_cons_of_pos _ (by simp [hq]),
            List.find?_cons_of_pos _ (by simp [hq])]
        simp [h1]
      · rw [List.find?_cons_of_neg _ (by simp [hq]),
            List.find?_cons_of_neg _ (by simp [hq])]
        exact ih

/-- helper: updating with an entry that keeps the dp_port of a found
entry makes the update the search result. -/
theorem netdev_rte_port_search_update_self (pe rp : PortEntry) (q : Nat)
    (l : List PortEntry) (hp : netdev_rte_port_search q l = some rp)
    (hdp : pe.dp_port = rp.dp_port) :
    netdev_rte_port_search q (update_port pe l) = some pe := by
  rw [netdev_rte_port_search_update, hp]
  simp [hdp.symm]

/-- helper: netdev_rte_offloads_add_flow never changes the set of
identity records hanging off the ingress port entry. -/
theorem netdev_rte_offloads_add_flow_preserves_inport (s : OffState)
    (m : Match) (acts : List NlAction) :
    (netdev_rte_port_search m.flow.in_port
        (netdev_rte_offloads_add_flow s m acts).2.port_map).map
      (fun p => p.ufid_to_rte)
    = (netdev_rte_port_search m.flow.in_port s.port_map).map
        (fun p => p.ufid_to_rte) := by
  unfold netdev_rte_offloads_add_flow
  split
  · rfl
  · dsimp only
    repeat' split
    all_goals try rfl
    all_goals simp_all [netdev_rte_port_search_update]

/-- helper: pair-result form of the creates lemma. -/
theorem netdev_rte_offloads_add_flow_creates_pair (s : OffState) (m : Match)
    (acts : List NlAction) (f : Option Nat) (s' : OffState)
    (h : netdev_rte_offloads_add_flow s m acts = (f, s')) :
    ∃ t, s'.hw.trace = s.hw.trace ++ t ∧ ∀ op ∈ t, op.isCreate = true := by
  have := netdev_rte_offloads_add_flow_creates s m acts
  rw [h] at this
  exact this

/-- helper: pair-result form of the in-port preservation lemma. -/
theorem netdev_rte_offloads_add_flow_preserves_inport_pair (s : OffState)
    (m : Match) (acts : List NlAction) (f : Option Nat) (s' : OffState)
    (h : netdev_rte_offloads_add_flow s m acts = (f, s')) :
    (netdev_rte_port_search m.flow.in_port s'.port_map).map
      (fun p => p.ufid_to_rte)
    = (netdev_rte_port_search m.flow.in_port s.port_map).map
        (fun p => p.ufid_to_rte) := by
  have := netdev_rte_offloads_add_flow_preserves_inport s m acts
  rw [h] at this
  exact this

/-- C1: when a ufid already has a registered hardware offload on the
ingress port, a second flow_put for the same ufid emits, against the
driver, first the destroys of ALL previously recorded handles of that
ufid and only afterwards create calls — at no point do old and new
hardware handles exist simultaneously; the old identity entry is replaced
by a fresh one of capacity 1 holding at most one (new) handle. -/
theorem c1_modify_destroys_old_before_installing_new (s : OffState)
    (netdev : Netdev) (m : Match) (acts : List NlAction) (ufid : Nat)
    (rte_port : PortEntry) (old : UfidHwOffload)
    (hport : netdev_rte_port_search m.flow.in_port s.port_map = some rte_port)
    (hold : ufid_hw_offload_find ufid rte_port.ufid_to_rte = some old) :
    ∃ rest, ((netdev_rte_offloads_flow_put s netdev m acts ufid).2).hw.trace
        = s.hw.trace ++ old.flows.map (fun q => DriverOp.destroy q.1) ++ rest
      ∧ (∀ op ∈ rest, op.isCreate = true)
      ∧ ∃ rp' r',
          netdev_rte_port_search m.flow.in_port
            ((netdev_rte_offloads_flow_put s netdev m acts ufid).2).port_map
            = some rp' ∧
          ufid_hw_offload_find ufid rp'.ufid_to_rte = some r' ∧
          r'.max_flows = 1 ∧ r'.flows.length ≤ 1 := by
  have hfree := netdev_rte_port_ufid_hw_offload_free_trace old s.hw
  have hs1 : netdev_rte_port_search m.flow.in_port
      (update_port { rte_port with ufid_to_rte := rte_port.ufid_to_rte.filter (fun r => r.ufid ≠ ufid) } s.port_map)
      = some { rte_port with ufid_to_rte := rte_port.ufid_to_rte.filter (fun r => r.ufid ≠ ufid) } :=
    netdev_rte_port_search_update_self _ rte_port _ _ hport rfl
  have hs2 : netdev_rte_port_search m.flow.in_port
      (update_port { rte_port with ufid_to_rte := { ufid := ufid, max_flows := 1, flows := [] } :: rte_port.ufid_to_rte.filter (fun r => r.ufid ≠ ufid) } (update_port { rte_port with ufid_to_rte := rte_port.ufid_to_rte.filter (fun r => r.ufid ≠ ufid) } s.port_map))
      = some { rte_port with ufid_to_rte := { ufid := ufid, max_flows := 1, flows := [] } :: rte_port.ufid_to_rte.filter (fun r => r.ufid ≠ ufid) } :=
    netdev_rte_port_search_update_self _ _ _ _ hs1 rfl
  unfold netdev_rte_offloads_flow_put
  rw [hport]
  dsimp only
  rw [hold]
  dsimp only [netdev_rte_port_ufid_hw_offload_alloc]
  by_cases hval : netdev_rte_offloads_validate_flow m false = true
  · rw [if_neg (by simp [hval])]
    split
    next s₄ heq =>
      obtain ⟨t, h1, h2⟩ :=
        netdev_rte_offloads_add_flow_creates_pair _ m acts _ _ heq
      dsimp only at h1
      rw [hfree] at h1
      have hpres :=
        netdev_rte_offloads_add_flow_preserves_inport_pair _ m acts _ _ heq
      dsimp only at hpres
      rw [hs2] at hpres
      simp only [Option.map_some'] at hpres
      obtain ⟨rp', hrp', hproj⟩ := Option.map_eq_some'.mp hpres
      refine ⟨t, ?_, h2, rp',
        { ufid := ufid, max_flows := 1, flows := [] }, hrp', ?_, rfl, by simp⟩
      · dsimp only
        rw [h1]
      · unfold ufid_hw_offload_find
        rw [hproj]
        exact List.find?_cons_of_pos _ (by simp)
    next h s₄ heq =>
      obtain ⟨t, h1, h2⟩ :=
        netdev_rte_offloads_add_flow_creates_pair _ m acts _ _ heq
      dsimp only at h1
      rw [hfree] at h1
      have hpres :=
        netdev_rte_offloads_add_flow_preserves_inport_pair _ m acts _ _ heq
      dsimp only at hpres
      rw [hs2] at hpres
      simp only [Option.map_some'] at hpres
      obtain ⟨rp', hrp', hproj⟩ := Option.map_eq_some'.mp hpres
      rw [hrp']
      dsimp only
      have hfind : ufid_hw_offload_find ufid rp'.ufid_to_rte
          = some { ufid := ufid, max_flows := 1, flows := [] } := by
        unfold ufid_hw_offload_find
        rw [hproj]
        exact List.find?_cons_of_pos _ (by simp)
      rw [hfind]
      dsimp only
      rw [show ufid_hw_offload_add_rte_flow { ufid := ufid, max_flows := 1, flows := [] } h netdev.id s₄.hw = ({ ufid := ufid, max_flows := 1, flows := [(h, netdev.id)] }, s₄.hw) from rfl]
      dsimp only
      refine ⟨t, by simp [h1], h2,
        { rp' with ufid_to_rte := rp'.ufid_to_rte.map (fun q => if q.ufid = ufid then { ufid := ufid, max_flows := 1, flows := [(h, netdev.id)] } else q) },
        { ufid := ufid, max_flows := 1, flows := [(h, netdev.id)] },
        netdev_rte_port_search_update_self _ rp' _ _ hrp' rfl, ?_, rfl, by simp⟩
      unfold ufid_hw_offload_find
      rw [hproj]
      simp
  · rw [if_pos (by simp [hval])]
    refine ⟨[], ?_, by simp,
      { rte_port with ufid_to_rte := { ufid := ufid, max_flows := 1, flows := [] } :: rte_port.ufid_to_rte.filter (fun r => r.ufid ≠ ufid) },
      { ufid := ufid, max_flows := 1, flows := [] }, hs2, ?_, rfl, by simp⟩
    · dsimp only
      rw [hfree]
      simp
    · unfold ufid_hw_offload_find
      exact List.find?_cons_of_pos _ (by simp)

/-- helper: the fan-out loop records exactly the per-uplink expected
handles (primary create, else mark+RSS fallback, skip on double failure)
as long as the record has capacity for them. -/
theorem vxlan_fanout_spec (nd : Nat) :
    ∀ (ports : List PortEntry) (r : UfidHwOffload) (hw : Hw),
      r.flows.length
        + (fanout_expected (ports.map is_uplink_dpdk) hw.resp).length
        ≤ r.max_flows →
      (vxlan_fanout nd ports r hw).1
        = { r with flows := r.flows ++ (fanout_expected (ports.map is_uplink_dpdk) hw.resp).map (fun h => (h, nd)) } := by
  intro ports
  induction ports with
  | nil =>
    intro r hw _
    simp [vxlan_fanout, fanout_expected]
  | cons data rest ih =>
    intro r hw hcap
    obtain ⟨resp, trace⟩ := hw
    simp only [List.map_cons] at hcap ⊢
    by_cases hup : is_uplink_dpdk data = true
    · simp only [fanout_expected, hup, if_true] at hcap ⊢
      rcases resp with _ | ⟨r1, rs⟩
      · -- no responses left: both attempts fail, uplink skipped
        simp only [vxlan_fanout, hup, if_true, Hw.flow_create]
        exact ih r _ hcap
      · rcases r1 with _ | h
        · rcases rs with _ | ⟨r2, rs'⟩
          · -- primary fails, fallback asked on an empty script: skipped
            simp only [vxlan_fanout, hup, if_true, Hw.flow_create]
            exact ih r _ hcap
          · rcases r2 with _ | h
            · -- both forms fail: uplink skipped
              simp only [vxlan_fanout, hup, if_true, Hw.flow_create]
              exact ih r _ hcap
            · -- fallback succeeds: record the handle
              have hlen : r.flows.length < r.max_flows := by
                simp at hcap
                omega
              simp only [vxlan_fanout, hup, if_true, Hw.flow_create,
                         ufid_hw_offload_add_rte_flow, if_pos hlen]
              rw [ih _ _ (by simp at hcap ⊢; omega)]
              simp
        · -- primary succeeds: record the handle
          have hlen : r.flows.length < r.max_flows := by
            simp at hcap
            omega
          simp only [vxlan_fanout, hup, if_true, Hw.flow_create,
                     ufid_hw_offload_add_rte_flow, if_pos hlen]
          rw [ih _ _ (by simp at hcap ⊢; omega)]
          simp
    · -- not an uplink DPDK port: skipped, no response consumed
      simp only [Bool.not_eq_true] at hup
      simp only [fanout_expected, hup, if_false] at hcap ⊢
      simp only [vxlan_fanout, hup, if_false]
      exact ih r _ hcap

/-- helper: updating a port entry that keeps its uplink/DPDK status keeps
the uplink pattern of the port map. -/
theorem update_port_uplink_pattern (pe : PortEntry) (l : List PortEntry)
    (h : ∀ q ∈ l, q.dp_port = pe.dp_port → is_uplink_dpdk q = is_uplink_dpdk pe) :
    (update_port pe l).map is_uplink_dpdk = l.map is_uplink_dpdk := by
  induction l with
  | nil => rfl
  | cons a t ih =>
    unfold update_port
    unfold update_port at ih
    simp only [List.map_cons]
    congr 1
    · by_cases h1 : a.dp_port = pe.dp_port
      · rw [if_pos h1, (h a (by simp) h1).symm]
      · rw [if_neg h1]
    · exact ih (fun q hq => h q (by simp [hq]))

/-- C4: a VXLAN virtual-port flow_put fanned out over the registered
uplink DPDK ports treats each uplink independently: per uplink the primary
decap form is tried and then the mark+RSS fallback, an uplink failing both
is skipped, handles are recorded exactly for the uplinks that succeeded,
and the overall call still returns 0 (partial fan-out is success). -/
theorem c4_vxlan_fanout_partial_success (s : OffState) (rte_port : PortEntry)
    (m : Match) (acts : List NlAction) (ufid : Nat) (hasOutput : Bool)
    (hacts : acts.isEmpty = false)
    (hold : ufid_hw_offload_find ufid rte_port.ufid_to_rte = none)
    (hphy : s.dpdk_phy_ports_amount ≠ 0)
    (hpat1 : (add_vport_vxlan_flow_patterns m).isSome = true)
    (hpat2 : (add_flow_patterns m).isSome = true)
    (hloop : ∀ pm : List PortEntry,
      vxlan_action_loop pm acts 0 false false = VxlanLoopRes.done 0 hasOutput)
    (hmem : netdev_rte_port_search rte_port.dp_port s.port_map = some rte_port)
    (huniq : ∀ q ∈ s.port_map, q.dp_port = rte_port.dp_port → q = rte_port)
    (hcap : (fanout_expected (s.port_map.map is_uplink_dpdk) s.hw.resp).length
              ≤ s.dpdk_phy_ports_amount) :
    (netdev_vport_vxlan_add_rte_flow_offload s rte_port m acts ufid).1 = 0 ∧
    ∃ rp', netdev_rte_port_search rte_port.dp_port
        (netdev_vport_vxlan_add_rte_flow_offload s rte_port m acts ufid).2.port_map
        = some rp' ∧
      ufid_hw_offload_find ufid rp'.ufid_to_rte
        = some { ufid := ufid, max_flows := s.dpdk_phy_ports_amount, flows := (fanout_expected (s.port_map.map is_uplink_dpdk) s.hw.resp).map (fun h => (h, rte_port.netdev.id)) } := by
  obtain ⟨pr1, hpr1⟩ := Option.isSome_iff_exists.mp hpat1
  obtain ⟨pr2, hpr2⟩ := Option.isSome_iff_exists.mp hpat2
  have hs1 : netdev_rte_port_search rte_port.dp_port (update_port { rte_port with ufid_to_rte := { ufid := ufid, max_flows := s.dpdk_phy_ports_amount, flows := [] } :: rte_port.ufid_to_rte } s.port_map) = some { rte_port with ufid_to_rte := { ufid := ufid, max_flows := s.dpdk_phy_ports_amount, flows := [] } :: rte_port.ufid_to_rte } :=
    netdev_rte_port_search_update_self _ rte_port _ _ hmem rfl
  have hpattern : (update_port { rte_port with ufid_to_rte := { ufid := ufid, max_flows := s.dpdk_phy_ports_amount, flows := [] } :: rte_port.ufid_to_rte } s.port_map).map is_uplink_dpdk = s.port_map.map is_uplink_dpdk :=
    update_port_uplink_pattern _ _ (fun q hq hdp => by rw [huniq q hq hdp]; rfl)
  have hfan := vxlan_fanout_spec rte_port.netdev.id
    (update_port { rte_port with ufid_to_rte := { ufid := ufid, max_flows := s.dpdk_phy_ports_amount, flows := [] } :: rte_port.ufid_to_rte } s.port_map)
    { ufid := ufid, max_flows := s.dpdk_phy_ports_amount, flows := [] }
    s.hw (by rw [hpattern]; simpa using hcap)
  rw [hpattern] at hfan
  unfold netdev_vport_vxlan_add_rte_flow_offload
  rw [if_neg (by simp [hacts])]
  rw [hold]
  dsimp only
  rw [if_neg hphy]
  dsimp only [netdev_rte_port_ufid_hw_offload_alloc]
  rw [hpr1]
  dsimp only
  rw [hpr2]
  dsimp only
  rw [hloop _]
  dsimp only
  rw [hfan]
  dsimp only
  simp only [List.nil_append]
  refine ⟨trivial, _, netdev_rte_port_search_update_self _ _ _ _ hs1 rfl, ?_⟩
  unfold ufid_hw_offload_find
  simp only [List.map_cons, if_true]
  exact List.find?_cons_of_pos _ (by simp)

/-- C1 witness: ufid 9 offloaded with handle 50 on port 1 is re-put; the
driver grants handle 60. -/
theorem c1_modify_destroys_old_before_installing_new_witness :
    ∃ rest, ((netdev_rte_offloads_flow_put c1_state c1_netdev c1_match [NlAction.output 1] 9).2).hw.trace
        = c1_state.hw.trace ++ ({ ufid := 9, max_flows := 1, flows := [(50, 3)] } : UfidHwOffload).flows.map (fun q => DriverOp.destroy q.1) ++ rest
      ∧ (∀ op ∈ rest, op.isCreate = true)
      ∧ ∃ rp' r',
          netdev_rte_port_search c1_match.flow.in_port
            ((netdev_rte_offloads_flow_put c1_state c1_netdev c1_match [NlAction.output 1] 9).2).port_map
            = some rp' ∧
          ufid_hw_offload_find 9 rp'.ufid_to_rte = some r' ∧
          r'.max_flows = 1 ∧ r'.flows.length ≤ 1 :=
  c1_modify_destroys_old_before_installing_new c1_state c1_netdev c1_match
    [NlAction.output 1] 9 c1_port { ufid := 9, max_flows := 1, flows := [(50, 3)] }
    (by decide) (by decide)

/-- C4 witness: three uplinks, the driver failing both forms on the
second, records handles 10 and 30 only and still reports success. -/
theorem c4_vxlan_fanout_partial_success_witness :
    (netdev_vport_vxlan_add_rte_flow_offload c4_state c4_vport c4_match
        [NlAction.ct []] 9).1 = 0 ∧
    ∃ rp', netdev_rte_port_search c4_vport.dp_port
        (netdev_vport_vxlan_add_rte_flow_offload c4_state c4_vport c4_match
          [NlAction.ct []] 9).2.port_map
        = some rp' ∧
      ufid_hw_offload_find 9 rp'.ufid_to_rte
        = some { ufid := 9, max_flows := c4_state.dpdk_phy_ports_amount, flows := (fanout_expected (c4_state.port_map.map is_uplink_dpdk) c4_state.hw.resp).map (fun h => (h, c4_vport.netdev.id)) } :=
  c4_vxlan_fanout_partial_success c4_state c4_vport c4_match [NlAction.ct []] 9
    false rfl (by decide) (by decide) (by decide) (by decide) (fun _ => rfl)
    (by decide) (by decide) (by decide)

end NetdevRteOffloads
